import Mathlib

/-!
Verification of the reliability computation engine of the
Space-Grade-Reliability-Test repository (a KiCad reliability plugin).

The Python sources `reliability_math.py`, `reliability_core.py` and
`reliability_dialog.py` are shallowly embedded below.  Pure float
arithmetic on probabilities is modelled over `ℚ` where the source only
uses field operations and comparisons (the composition laws
`r_series`, `r_parallel`, `r_k_of_n`), and over `ℝ` where the source
uses transcendental functions (`exp`, `log`, fractional powers).
Python dictionaries are modelled as functions into `Option`, and
`dict.get(key, default)` as `Option.getD`.
-/

/-- Python's substring test `needle in hay` (contiguous substring). -/
def pyIn (needle hay : String) : Bool :=
  decide (needle.data <:+: hay.data)

/-- Python's `str.lower()` (ASCII case folding suffices for the class
names used by the dispatchers). -/
def pyLower (s : String) : String :=
  String.mk (s.data.map Char.toLower)

/-! ## Composition layer (`reliability_math.py` / `reliability_core.py`)

`r_series`, `r_parallel` and the two independent `r_k_of_n`
implementations.  The namespace `Rmath` embeds `reliability_math.py`,
the namespace `Rcore` embeds `reliability_core.py`. -/

namespace Rmath

/-- Embeds `reliability_math.r_series`: the running-product loop
`result = 1.0; for r in r_list: result *= r`. -/
def r_series (r_list : List ℚ) : ℚ :=
  r_list.foldl (fun result r => result * r) 1

/-- Embeds `reliability_math.r_parallel`: the loop
`p_fail = 1.0; for r in r_list: p_fail *= (1 - r)` followed by
`1.0 - p_fail`. -/
def r_parallel (r_list : List ℚ) : ℚ :=
  1 - r_list.foldl (fun p_fail r => p_fail * (1 - r)) 1

/-- Embeds the Python test `len(set(r_list)) == 1`: the list is
nonempty and all its entries are equal. -/
def allSame (r_list : List ℚ) : Bool :=
  match r_list with
  | [] => false
  | x :: xs => xs.all (fun y => y == x)

/-- Embeds `reliability_math.r_k_of_n`.  Branches in source order:
invalid `k` guard, `k == 1` parallel, `k == n` series, identical
reliabilities (binomial closed form, `for i in range(k, n + 1)`
accumulation), and the recursive one-step conditioning on the last
element (`r_list[-1]`, `r_list[:-1]`); `n = len(r_list)` is inlined. -/
def r_k_of_n (r_list : List ℚ) (k : ℤ) : ℚ :=
  if h1 : k > (r_list.length : ℤ) ∨ k < 1 then 0
  else if k = 1 then r_parallel r_list
  else if k = (r_list.length : ℤ) then r_series r_list
  else if allSame r_list then
    ∑ i ∈ Finset.Icc k.toNat r_list.length,
      (r_list.length.choose i : ℚ) * (r_list.headD 0) ^ i *
        (1 - r_list.headD 0) ^ (r_list.length - i)
  else
    r_list.getLastD 0 * r_k_of_n r_list.dropLast (k - 1) +
      (1 - r_list.getLastD 0) * r_k_of_n r_list.dropLast k
termination_by r_list.length
decreasing_by
  all_goals
    simp only [List.length_dropLast]
    omega

end Rmath

namespace Rcore

/-- Embeds `reliability_core.r_series` (same loop as in
`reliability_math.py`). -/
def r_series (r_list : List ℚ) : ℚ :=
  r_list.foldl (fun result r => result * r) 1

/-- Embeds `reliability_core.r_parallel` (same loop as in
`reliability_math.py`). -/
def r_parallel (r_list : List ℚ) : ℚ :=
  1 - r_list.foldl (fun p_fail r => p_fail * (1 - r)) 1

/-- Embeds `reliability_core.r_k_of_n`.  Branches in source order:
invalid `k` guard, `k == 1` parallel, `k == n` series, the hard-coded
2-of-3 inclusion-exclusion expansion, the (unreachable) `n == 1` case,
and the recursive one-step conditioning on the last element;
`n = len(r_list)` is inlined. -/
def r_k_of_n (r_list : List ℚ) (k : ℤ) : ℚ :=
  if h1 : k > (r_list.length : ℤ) ∨ k < 1 then 0
  else if k = 1 then r_parallel r_list
  else if k = (r_list.length : ℤ) then r_series r_list
  else if (r_list.length : ℤ) = 3 ∧ k = 2 then
    let ra := r_list.getD 0 0
    let rb := r_list.getD 1 0
    let rc := r_list.getD 2 0
    let p_all := ra * rb * rc
    let p_ab := ra * rb * (1 - rc)
    let p_ac := ra * (1 - rb) * rc
    let p_bc := (1 - ra) * rb * rc
    p_all + p_ab + p_ac + p_bc
  else if (r_list.length : ℤ) = 1 then (if k = 1 then r_list.headD 0 else 0)
  else
    r_list.getLastD 0 * r_k_of_n r_list.dropLast (k - 1) +
      (1 - r_list.getLastD 0) * r_k_of_n r_list.dropLast k
termination_by r_list.length
decreasing_by
  all_goals
    simp only [List.length_dropLast]
    omega

end Rcore

/-! ## Reference semantics for k-of-n

`rknAux k l` is the probability that at least `k` of the independent
components with working-probabilities `l` work, defined by head
conditioning.  Both repository implementations are proved equal to the
guarded version `rknSpec`. -/

/-- Probability that at least `k` of the components in `l` work
(head-first one-step conditioning; `k ≤ 0` is certain). -/
def rknAux : ℤ → List ℚ → ℚ
  | k, [] => if k ≤ 0 then 1 else 0
  | k, x :: xs => x * rknAux (k - 1) xs + (1 - x) * rknAux k xs

/-- `rknAux` with the repository's invalid-`k` policy bolted on. -/
def rknSpec (r_list : List ℚ) (k : ℤ) : ℚ :=
  if k < 1 ∨ (r_list.length : ℤ) < k then 0 else rknAux k r_list

theorem rknAux_nonpos {k : ℤ} (l : List ℚ) (h : k ≤ 0) : rknAux k l = 1 := by
  induction l generalizing k with
  | nil => simp [rknAux, h]
  | cons x xs ih =>
    rw [rknAux, ih h, ih (by omega)]
    ring

theorem rknAux_gt {k : ℤ} {l : List ℚ} (h : (l.length : ℤ) < k) :
    rknAux k l = 0 := by
  induction l generalizing k with
  | nil =>
    simp only [List.length_nil] at h
    simp [rknAux]
    omega
  | cons x xs ih =>
    simp only [List.length_cons] at h
    rw [rknAux, ih (by omega), ih (by omega)]
    ring

theorem rknAux_one (l : List ℚ) :
    rknAux 1 l = 1 - (l.map (fun x => 1 - x)).prod := by
  induction l with
  | nil => simp [rknAux]
  | cons x xs ih =>
    rw [rknAux, rknAux_nonpos xs (by omega), ih]
    simp only [List.map_cons, List.prod_cons]
    ring

theorem rknAux_length (l : List ℚ) : rknAux (l.length : ℤ) l = l.prod := by
  induction l with
  | nil => simp [rknAux]
  | cons x xs ih =>
    have h2 : rknAux ((xs.length : ℤ) + 1) xs = 0 :=
      rknAux_gt (by omega)
    simp only [List.length_cons, List.prod_cons]
    rw [rknAux]
    push_cast
    rw [add_sub_cancel_right, ih, h2]
    ring

theorem rknAux_concat (k : ℤ) (x : ℚ) (l : List ℚ) :
    rknAux k (l ++ [x]) = x * rknAux (k - 1) l + (1 - x) * rknAux k l := by
  induction l generalizing k with
  | nil => simp [rknAux]
  | cons y ys ih =>
    simp only [List.cons_append]
    rw [rknAux, ih, ih, rknAux, rknAux]
    ring

theorem rknAux_mem_unitInterval {l : List ℚ}
    (h : ∀ x ∈ l, 0 ≤ x ∧ x ≤ 1) (k : ℤ) :
    0 ≤ rknAux k l ∧ rknAux k l ≤ 1 := by
  induction l generalizing k with
  | nil =>
    rw [rknAux]
    split <;> norm_num
  | cons x xs ih =>
    have hx := h x (by simp)
    have hxs : ∀ y ∈ xs, 0 ≤ y ∧ y ≤ 1 := fun y hy => h y (by simp [hy])
    have h1 := ih hxs (k - 1)
    have h2 := ih hxs k
    rw [rknAux]
    constructor <;> nlinarith [hx.1, hx.2, h1.1, h1.2, h2.1, h2.2]

/-! Fold characterizations of the series / parallel loops. -/

theorem foldl_mul_eq_prod (l : List ℚ) (a : ℚ) :
    l.foldl (fun result r => result * r) a = a * l.prod := by
  induction l generalizing a with
  | nil => simp
  | cons x xs ih =>
    simp only [List.foldl_cons, List.prod_cons, ih]
    ring

theorem foldl_one_sub_eq_prod (l : List ℚ) (a : ℚ) :
    l.foldl (fun p r => p * (1 - r)) a = a * (l.map (fun x => 1 - x)).prod := by
  induction l generalizing a with
  | nil => simp
  | cons x xs ih =>
    simp only [List.foldl_cons, List.map_cons, List.prod_cons, ih]
    ring

theorem r_series_eq_prod (l : List ℚ) : Rmath.r_series l = l.prod := by
  rw [Rmath.r_series, foldl_mul_eq_prod, one_mul]

theorem r_parallel_eq (l : List ℚ) :
    Rmath.r_parallel l = 1 - (l.map (fun x => 1 - x)).prod := by
  rw [Rmath.r_parallel, foldl_one_sub_eq_prod, one_mul]

theorem core_r_series_eq_prod (l : List ℚ) : Rcore.r_series l = l.prod := by
  rw [Rcore.r_series, foldl_mul_eq_prod, one_mul]

theorem core_r_parallel_eq (l : List ℚ) :
    Rcore.r_parallel l = 1 - (l.map (fun x => 1 - x)).prod := by
  rw [Rcore.r_parallel, foldl_one_sub_eq_prod, one_mul]

/-! ## The binomial closed form -/

/-- The closed-form binomial tail sum used by the identical-reliability
branch of `reliability_math.r_k_of_n`. -/
def binomS (c : ℚ) (n j : ℕ) : ℚ :=
  ∑ i ∈ Finset.Icc j n, (n.choose i : ℚ) * c ^ i * (1 - c) ^ (n - i)

theorem binomS_zero (c : ℚ) (n : ℕ) : binomS c n 0 = 1 := by
  have hIcc : Finset.Icc 0 n = Finset.range (n + 1) := by
    ext i
    simp
    omega
  rw [binomS, hIcc]
  have hpow : (∑ i ∈ Finset.range (n + 1), (n.choose i : ℚ) * c ^ i * (1 - c) ^ (n - i)) =
      (c + (1 - c)) ^ n := by
    rw [add_pow]
    exact Finset.sum_congr rfl (fun i _ => by ring)
  rw [hpow]
  norm_num

theorem binomS_empty (c : ℚ) {n j : ℕ} (h : n < j) : binomS c n j = 0 := by
  rw [binomS, Finset.Icc_eq_empty (by omega), Finset.sum_empty]

theorem binomS_succ_succ (c : ℚ) (n j : ℕ) :
    binomS c (n + 1) (j + 1) = c * binomS c n j + (1 - c) * binomS c n (j + 1) := by
  by_cases hj : j ≤ n
  · have hmap : Finset.Icc (j + 1) (n + 1) =
        Finset.map (addRightEmbedding 1) (Finset.Icc j n) := by
      rw [Finset.map_add_right_Icc]
    rw [binomS, hmap, Finset.sum_map]
    have hterm : ∀ i ∈ Finset.Icc j n,
        (((n + 1).choose (addRightEmbedding 1 i) : ℚ) *
          c ^ (addRightEmbedding 1 i) * (1 - c) ^ (n + 1 - addRightEmbedding 1 i)) =
        c * ((n.choose i : ℚ) * c ^ i * (1 - c) ^ (n - i)) +
          (n.choose (i + 1) : ℚ) * c ^ (i + 1) * (1 - c) ^ (n - i) := by
      intro i _
      have hemb : (addRightEmbedding 1) i = i + 1 := rfl
      rw [hemb, Nat.choose_succ_succ, Nat.succ_sub_succ]
      push_cast
      ring
    rw [Finset.sum_congr rfl hterm, Finset.sum_add_distrib, ← Finset.mul_sum]
    have hsecond : (∑ i ∈ Finset.Icc j n,
        (n.choose (i + 1) : ℚ) * c ^ (i + 1) * (1 - c) ^ (n - i)) =
        (1 - c) * binomS c n (j + 1) := by
      have hmap2 : Finset.Icc (j + 1) (n + 1) =
          Finset.map (addRightEmbedding 1) (Finset.Icc j n) := by
        rw [Finset.map_add_right_Icc]
      have hre : (∑ i ∈ Finset.Icc j n,
          (n.choose (i + 1) : ℚ) * c ^ (i + 1) * (1 - c) ^ (n - i)) =
          ∑ i ∈ Finset.Icc (j + 1) (n + 1),
            (n.choose i : ℚ) * c ^ i * (1 - c) ^ (n + 1 - i) := by
        rw [hmap2, Finset.sum_map]
        refine Finset.sum_congr rfl (fun i hi => ?_)
        have hemb : (addRightEmbedding 1) i = i + 1 := rfl
        rw [hemb, Nat.succ_sub_succ]
      rw [hre, Finset.sum_Icc_succ_top (by omega), Nat.choose_succ_self]
      simp only [Nat.cast_zero, zero_mul, add_zero]
      rw [binomS, Finset.mul_sum]
      refine Finset.sum_congr rfl (fun i hi => ?_)
      simp only [Finset.mem_Icc] at hi
      have : n + 1 - i = (n - i) + 1 := by omega
      rw [this, pow_succ]
      ring
    rw [hsecond, binomS, binomS]
  · rw [binomS_empty c (by omega), binomS_empty c (by omega),
      binomS_empty c (by omega)]
    ring

/-- `rknAux` on a constant list is the binomial tail sum. -/
theorem rknAux_replicate (c : ℚ) (n j : ℕ) :
    rknAux (j : ℤ) (List.replicate n c) = binomS c n j := by
  induction n generalizing j with
  | zero =>
    cases j with
    | zero => simp [rknAux, binomS]
    | succ j' =>
      rw [List.replicate_zero, rknAux]
      rw [binomS_empty c (by omega)]
      simp
  | succ n ih =>
    rw [List.replicate_succ, rknAux]
    cases j with
    | zero =>
      rw [binomS_zero]
      have h1 : rknAux ((0 : ℕ) - 1 : ℤ) (List.replicate n c) = 1 :=
        rknAux_nonpos _ (by omega)
      have h2 : rknAux ((0 : ℕ) : ℤ) (List.replicate n c) = 1 :=
        rknAux_nonpos _ (by omega)
      rw [h1, h2]
      ring
    | succ j' =>
      have hc1 : ((j' + 1 : ℕ) : ℤ) - 1 = (j' : ℤ) := by omega
      rw [hc1, ih j', ih (j' + 1), binomS_succ_succ]

/-! ## Implementation = reference semantics -/

theorem allSame_eq_replicate {r : List ℚ} (h : Rmath.allSame r = true) :
    r = List.replicate r.length (r.headD 0) := by
  cases r with
  | nil => simp [Rmath.allSame] at h
  | cons x xs =>
    simp only [Rmath.allSame, List.all_eq_true, beq_iff_eq] at h
    simp only [List.headD_cons, List.length_cons, List.replicate_succ]
    have hxs : xs = List.replicate xs.length x := by
      rw [List.eq_replicate_iff]
      exact ⟨rfl, h⟩
    exact congrArg (x :: ·) hxs

theorem getLastD_eq_getLast {r : List ℚ} (h : r ≠ []) :
    r.getLastD 0 = r.getLast h := by
  rw [List.getLastD_eq_getLast?, List.getLast?_eq_getLast r h, Option.getD_some]

/-- `reliability_math.r_k_of_n` agrees with the reference semantics. -/
theorem rkn_math_eq_spec (r : List ℚ) (k : ℤ) :
    Rmath.r_k_of_n r k = rknSpec r k := by
  suffices H : ∀ (m : ℕ) (r : List ℚ), r.length = m → ∀ k,
      Rmath.r_k_of_n r k = rknSpec r k by
    exact H r.length r rfl k
  intro m
  induction m using Nat.strong_induction_on with
  | _ m IH =>
  intro r hlen k
  subst hlen
  rw [rknSpec]
  by_cases hg : k > (r.length : ℤ) ∨ k < 1
  · rw [if_pos (by omega), Rmath.r_k_of_n, dif_pos hg]
  rw [if_neg (by omega), Rmath.r_k_of_n, dif_neg hg]
  by_cases hk1 : k = 1
  · subst hk1
    rw [if_pos rfl, r_parallel_eq, rknAux_one]
  rw [if_neg hk1]
  by_cases hkn : k = (r.length : ℤ)
  · rw [if_pos hkn, r_series_eq_prod, hkn, rknAux_length]
  rw [if_neg hkn]
  by_cases hs : Rmath.allSame r
  · rw [if_pos hs]
    have hrep := allSame_eq_replicate hs
    have hbin : (∑ i ∈ Finset.Icc k.toNat r.length,
        (r.length.choose i : ℚ) * (r.headD 0) ^ i *
          (1 - r.headD 0) ^ (r.length - i)) =
        binomS (r.headD 0) r.length k.toNat := rfl
    have hk : ((k.toNat : ℤ)) = k := Int.toNat_of_nonneg (by omega)
    rw [hbin]
    conv_rhs => rw [hrep, ← hk]
    rw [rknAux_replicate]
  rw [if_neg hs]
  have hne : r ≠ [] := by
    intro hnil
    rw [hnil] at hg
    simp only [List.length_nil, Nat.cast_zero] at hg
    omega
  have hlt : r.dropLast.length < r.length := by
    rw [List.length_dropLast]
    have := List.length_pos.mpr hne
    omega
  have hrec1 : Rmath.r_k_of_n r.dropLast (k - 1) = rknAux (k - 1) r.dropLast := by
    rw [IH _ hlt r.dropLast rfl (k - 1), rknSpec,
      if_neg (by rw [List.length_dropLast]; omega)]
  have hrec2 : Rmath.r_k_of_n r.dropLast k = rknAux k r.dropLast := by
    rw [IH _ hlt r.dropLast rfl k, rknSpec,
      if_neg (by rw [List.length_dropLast]; omega)]
  rw [hrec1, hrec2, getLastD_eq_getLast hne]
  conv_rhs => rw [← List.dropLast_append_getLast hne, rknAux_concat]

/-- `reliability_core.r_k_of_n` agrees with the reference semantics. -/
theorem rkn_core_eq_spec (r : List ℚ) (k : ℤ) :
    Rcore.r_k_of_n r k = rknSpec r k := by
  suffices H : ∀ (m : ℕ) (r : List ℚ), r.length = m → ∀ k,
      Rcore.r_k_of_n r k = rknSpec r k by
    exact H r.length r rfl k
  intro m
  induction m using Nat.strong_induction_on with
  | _ m IH =>
  intro r hlen k
  subst hlen
  rw [rknSpec]
  by_cases hg : k > (r.length : ℤ) ∨ k < 1
  · rw [if_pos (by omega), Rcore.r_k_of_n, dif_pos hg]
  rw [if_neg (by omega), Rcore.r_k_of_n, dif_neg hg]
  by_cases hk1 : k = 1
  · subst hk1
    rw [if_pos rfl, core_r_parallel_eq, rknAux_one]
  rw [if_neg hk1]
  by_cases hkn : k = (r.length : ℤ)
  · rw [if_pos hkn, core_r_series_eq_prod, hkn, rknAux_length]
  rw [if_neg hkn]
  by_cases h23 : (r.length : ℤ) = 3 ∧ k = 2
  · rw [if_pos h23]
    obtain ⟨hn3, hk2⟩ := h23
    have hlen3 : r.length = 3 := by omega
    obtain ⟨a, b, c, rfl⟩ := List.length_eq_three.mp hlen3
    subst hk2
    norm_num [rknAux]
    ring
  rw [if_neg h23]
  by_cases hn1 : (r.length : ℤ) = 1
  · exfalso
    omega
  rw [if_neg hn1]
  have hne : r ≠ [] := by
    intro hnil
    rw [hnil] at hg
    simp only [List.length_nil, Nat.cast_zero] at hg
    omega
  have hlt : r.dropLast.length < r.length := by
    rw [List.length_dropLast]
    have := List.length_pos.mpr hne
    omega
  have hrec1 : Rcore.r_k_of_n r.dropLast (k - 1) = rknAux (k - 1) r.dropLast := by
    rw [IH _ hlt r.dropLast rfl (k - 1), rknSpec,
      if_neg (by rw [List.length_dropLast]; omega)]
  have hrec2 : Rcore.r_k_of_n r.dropLast k = rknAux k r.dropLast := by
    rw [IH _ hlt r.dropLast rfl k, rknSpec,
      if_neg (by rw [List.length_dropLast]; omega)]
  rw [hrec1, hrec2, getLastD_eq_getLast hne]
  conv_rhs => rw [← List.dropLast_append_getLast hne, rknAux_concat]

/-! ## Product bounds for lists of probabilities -/

theorem list_prod_nonneg_unit {l : List ℚ} (h : ∀ x ∈ l, 0 ≤ x ∧ x ≤ 1) :
    0 ≤ l.prod := by
  induction l with
  | nil => simp
  | cons x xs ih =>
    rw [List.prod_cons]
    have hx := h x (by simp)
    have hxs := ih (fun y hy => h y (by simp [hy]))
    exact mul_nonneg hx.1 hxs

theorem list_prod_le_one_unit {l : List ℚ} (h : ∀ x ∈ l, 0 ≤ x ∧ x ≤ 1) :
    l.prod ≤ 1 := by
  induction l with
  | nil => simp
  | cons x xs ih =>
    rw [List.prod_cons]
    have hx := h x (by simp)
    have hxsmem : ∀ y ∈ xs, 0 ≤ y ∧ y ≤ 1 := fun y hy => h y (by simp [hy])
    have h1 := ih hxsmem
    have h0 := list_prod_nonneg_unit hxsmem
    nlinarith

theorem list_prod_le_of_mem {l : List ℚ} (h : ∀ y ∈ l, 0 ≤ y ∧ y ≤ 1)
    {x : ℚ} (hx : x ∈ l) : l.prod ≤ x := by
  induction l with
  | nil => simp at hx
  | cons y ys ih =>
    rw [List.prod_cons]
    have hy := h y (by simp)
    have hysmem : ∀ z ∈ ys, 0 ≤ z ∧ z ≤ 1 := fun z hz => h z (by simp [hz])
    have hys0 := list_prod_nonneg_unit hysmem
    have hys1 := list_prod_le_one_unit hysmem
    rcases List.mem_cons.mp hx with rfl | hmem
    · nlinarith
    · have := ih hysmem hmem
      nlinarith [(h x (by simp [hmem])).1]

/-! ## Claim theorems for the composition layer -/

/-- C8: the two independent `r_k_of_n` implementations
(`reliability_math.py` and `reliability_core.py`) are extensionally
equal for every reliability list and every integer threshold `k`,
despite the differing special-case branches. -/
theorem claim_C8_k_of_n_implementations_agree (r : List ℚ) (k : ℤ) :
    Rmath.r_k_of_n r k = Rcore.r_k_of_n r k := by
  rw [rkn_math_eq_spec, rkn_core_eq_spec]

/-- C2: for lists of length at least 2 and `1 < k < n`, both `r_k_of_n`
implementations satisfy the one-step conditioning identity
`R(k, r) = r[n-1] * R(k-1, r[:-1]) + (1 - r[n-1]) * R(k, r[:-1])`; this
covers the binomial closed-form branch (identical entries) and the
hard-coded 2-of-3 branch. -/
theorem claim_C2_one_step_conditioning (r : List ℚ) (k : ℤ)
    (hlen : 2 ≤ r.length) (hk1 : 1 < k) (hkn : k < (r.length : ℤ)) :
    Rmath.r_k_of_n r k =
      r.getLastD 0 * Rmath.r_k_of_n r.dropLast (k - 1) +
        (1 - r.getLastD 0) * Rmath.r_k_of_n r.dropLast k ∧
    Rcore.r_k_of_n r k =
      r.getLastD 0 * Rcore.r_k_of_n r.dropLast (k - 1) +
        (1 - r.getLastD 0) * Rcore.r_k_of_n r.dropLast k := by
  have hne : r ≠ [] := by
    intro hnil
    rw [hnil] at hlen
    simp at hlen
  have key : rknSpec r k =
      r.getLastD 0 * rknSpec r.dropLast (k - 1) +
        (1 - r.getLastD 0) * rknSpec r.dropLast k := by
    rw [rknSpec, if_neg (by omega), rknSpec,
      if_neg (by rw [List.length_dropLast]; omega), rknSpec,
      if_neg (by rw [List.length_dropLast]; omega),
      getLastD_eq_getLast hne]
    conv_lhs => rw [← List.dropLast_append_getLast hne, rknAux_concat]
  constructor
  · rw [rkn_math_eq_spec, rkn_math_eq_spec, rkn_math_eq_spec]
    exact key
  · rw [rkn_core_eq_spec, rkn_core_eq_spec, rkn_core_eq_spec]
    exact key

/-- Witness for C2 at the concrete asymmetric list `[1/2, 1/3, 1/4]`
with `k = 2` (which exercises the 2-of-3 branch of the core
implementation). -/
theorem claim_C2_witness :
    Rmath.r_k_of_n [1/2, 1/3, 1/4] 2 =
      ([1/2, 1/3, 1/4] : List ℚ).getLastD 0 *
          Rmath.r_k_of_n ([1/2, 1/3, 1/4] : List ℚ).dropLast (2 - 1) +
        (1 - ([1/2, 1/3, 1/4] : List ℚ).getLastD 0) *
          Rmath.r_k_of_n ([1/2, 1/3, 1/4] : List ℚ).dropLast 2 ∧
    Rcore.r_k_of_n [1/2, 1/3, 1/4] 2 =
      ([1/2, 1/3, 1/4] : List ℚ).getLastD 0 *
          Rcore.r_k_of_n ([1/2, 1/3, 1/4] : List ℚ).dropLast (2 - 1) +
        (1 - ([1/2, 1/3, 1/4] : List ℚ).getLastD 0) *
          Rcore.r_k_of_n ([1/2, 1/3, 1/4] : List ℚ).dropLast 2 :=
  claim_C2_one_step_conditioning [1/2, 1/3, 1/4] 2
    (by norm_num) (by norm_num) (by norm_num)

/-- C6: for every list and every `k` outside `[1, n]` (`k > n` or
`k < 1`), both `r_k_of_n` implementations return reliability 0; being
total Lean functions, they raise no exception. -/
theorem claim_C6_invalid_k_returns_zero (r : List ℚ) (k : ℤ)
    (h : k > (r.length : ℤ) ∨ k < 1) :
    Rmath.r_k_of_n r k = 0 ∧ Rcore.r_k_of_n r k = 0 := by
  constructor
  · rw [rkn_math_eq_spec, rknSpec, if_pos (by omega)]
  · rw [rkn_core_eq_spec, rknSpec, if_pos (by omega)]

/-- Witness for C6 at the concrete list `[1/2]` with `k = 5 > n = 1`. -/
theorem claim_C6_witness :
    Rmath.r_k_of_n [1/2] 5 = 0 ∧ Rcore.r_k_of_n [1/2] 5 = 0 :=
  claim_C6_invalid_k_returns_zero [1/2] 5 (by norm_num)

/-- C7: for every non-empty list of reliabilities in `[0, 1]`, the
series combination is below every element (hence below the minimum)
and the parallel combination is above every element (hence above the
maximum), for both implementations. -/
theorem claim_C7_series_parallel_bounds (r : List ℚ)
    (hmem : ∀ x ∈ r, 0 ≤ x ∧ x ≤ 1) (_hne : r ≠ []) :
    ∀ x ∈ r, Rmath.r_series r ≤ x ∧ x ≤ Rmath.r_parallel r ∧
      Rcore.r_series r ≤ x ∧ x ≤ Rcore.r_parallel r := by
  intro x hx
  have hser : r.prod ≤ x := list_prod_le_of_mem hmem hx
  have hmapmem : ∀ y ∈ r.map (fun t => 1 - t), 0 ≤ y ∧ y ≤ 1 := by
    intro y hy
    obtain ⟨t, ht, rfl⟩ := List.mem_map.mp hy
    have := hmem t ht
    constructor <;> linarith [this.1, this.2]
  have hpar : (r.map (fun t => 1 - t)).prod ≤ 1 - x :=
    list_prod_le_of_mem hmapmem (List.mem_map.mpr ⟨x, hx, rfl⟩)
  refine ⟨?_, ?_, ?_, ?_⟩
  · rw [r_series_eq_prod]
    exact hser
  · rw [r_parallel_eq]
    linarith
  · rw [core_r_series_eq_prod]
    exact hser
  · rw [core_r_parallel_eq]
    linarith

/-- Witness for C7 at the concrete list `[1/2, 2/3]` and element `1/2`. -/
theorem claim_C7_witness :
    Rmath.r_series [1/2, 2/3] ≤ (1/2 : ℚ) ∧
      (1/2 : ℚ) ≤ Rmath.r_parallel [1/2, 2/3] ∧
      Rcore.r_series [1/2, 2/3] ≤ (1/2 : ℚ) ∧
      (1/2 : ℚ) ≤ Rcore.r_parallel [1/2, 2/3] :=
  claim_C7_series_parallel_bounds [1/2, 2/3]
    (by norm_num) (by simp) (1/2) (by norm_num)

/-- C9: range closure of the composition laws of `reliability_math.py`:
if every element of the list lies in `[0, 1]` then `r_series`,
`r_parallel` and `r_k_of_n` (for every integer `k`) return values in
`[0, 1]`. -/
theorem claim_C9_range_closure (r : List ℚ)
    (hmem : ∀ x ∈ r, 0 ≤ x ∧ x ≤ 1) :
    (0 ≤ Rmath.r_series r ∧ Rmath.r_series r ≤ 1) ∧
    (0 ≤ Rmath.r_parallel r ∧ Rmath.r_parallel r ≤ 1) ∧
    ∀ k : ℤ, 0 ≤ Rmath.r_k_of_n r k ∧ Rmath.r_k_of_n r k ≤ 1 := by
  have hmapmem : ∀ y ∈ r.map (fun t => 1 - t), 0 ≤ y ∧ y ≤ 1 := by
    intro y hy
    obtain ⟨t, ht, rfl⟩ := List.mem_map.mp hy
    have := hmem t ht
    constructor <;> linarith [this.1, this.2]
  refine ⟨⟨?_, ?_⟩, ⟨?_, ?_⟩, ?_⟩
  · rw [r_series_eq_prod]
    exact list_prod_nonneg_unit hmem
  · rw [r_series_eq_prod]
    exact list_prod_le_one_unit hmem
  · rw [r_parallel_eq]
    linarith [list_prod_le_one_unit hmapmem]
  · rw [r_parallel_eq]
    linarith [list_prod_nonneg_unit hmapmem]
  · intro k
    rw [rkn_math_eq_spec, rknSpec]
    split
    · norm_num
    · exact rknAux_mem_unitInterval hmem k

/-- Witness for C9 at the concrete list `[1/2, 1/3]` (and `k = 1`
for the k-of-n component). -/
theorem claim_C9_witness :
    (0 ≤ Rmath.r_series [1/2, 1/3] ∧ Rmath.r_series [1/2, 1/3] ≤ 1) ∧
    (0 ≤ Rmath.r_parallel [1/2, 1/3] ∧ Rmath.r_parallel [1/2, 1/3] ≤ 1) ∧
    (0 ≤ Rmath.r_k_of_n [1/2, 1/3] 1 ∧ Rmath.r_k_of_n [1/2, 1/3] 1 ≤ 1) := by
  have h := claim_C9_range_closure [1/2, 1/3] (by norm_num)
  exact ⟨h.1, h.2.1, h.2.2 1⟩

/-! ## System evaluation (`reliability_dialog._calculate_system`)

`reliability_dialog.py` evaluates the block-diagram tree with a nested
recursive function `calc(block_id)`.  Blocks live in a dictionary
`self.editor.blocks` (modelled as `String → Option Block`), per-sheet
results in `self.sheet_data` (modelled as `String → Option SheetEntry`).
Python recursion depth is modelled with explicit fuel: `none` means the
fuel ran out, and the totality theorem shows that enough fuel exists
whenever the child-reference graph is founded by a rank function —
dangling child references are allowed. -/

namespace Rdialog

/-- The three values of `ConnectionType` (series / parallel / k_of_n). -/
inductive ConnectionType where
  | series
  | parallel
  | k_of_n
deriving DecidableEq

/-- The fields of a diagram block read by `calc`. -/
structure Block where
  name : String
  is_group : Bool
  children : List String
  connection_type : ConnectionType
  k_value : ℤ

/-- One entry of `self.sheet_data`: `_calculate_sheets` always stores
both the sheet reliability `r` and the sheet failure rate `lambda`. -/
structure SheetEntry where
  r : ℚ
  lambda_val : ℚ

/-- Embeds the nested function `calc` of
`reliability_dialog._calculate_system`: a missing block id yields
reliability 1.0; a group combines its children with the composition
functions imported from `reliability_core`; a leaf reads
`sheet_data.get(b.name, {}).get("r", 1.0)`. -/
def calc_block (blocks : String → Option Block)
    (sheet : String → Option SheetEntry) : ℕ → String → Option ℚ
  | 0, _ => none
  | fuel + 1, block_id =>
    match blocks block_id with
    | none => some 1
    | some b =>
      if b.is_group then
        match b.children.mapM (fun cid => calc_block blocks sheet fuel cid) with
        | none => none
        | some child_rs =>
          match b.connection_type with
          | ConnectionType.series => some (Rcore.r_series child_rs)
          | ConnectionType.parallel => some (Rcore.r_parallel child_rs)
          | ConnectionType.k_of_n => some (Rcore.r_k_of_n child_rs b.k_value)
      else
        some (((sheet b.name).map SheetEntry.r).getD 1)

/-- Embeds the leaf branch assignment
`b.lambda_val = data.get("lambda", 0.0)`. -/
def leaf_lambda (sheet : String → Option SheetEntry) (b : Block) : ℚ :=
  ((sheet b.name).map SheetEntry.lambda_val).getD 0

end Rdialog

theorem mapM_option_isSome {α β : Type} {f : α → Option β} :
    ∀ {l : List α}, (∀ c ∈ l, (f c).isSome = true) →
      (l.mapM f).isSome = true := by
  intro l
  induction l with
  | nil =>
    intro _
    rfl
  | cons a as ih =>
    intro h
    obtain ⟨b, hb⟩ := Option.isSome_iff_exists.mp (h a (by simp))
    obtain ⟨bs, hbs⟩ := Option.isSome_iff_exists.mp
      (ih (fun c hc => h c (by simp [hc])))
    rw [List.mapM_cons, hb, hbs]
    rfl

/-- C10: in `reliability_dialog._calculate_system`: (1) a child id
resolving to no block contributes reliability exactly 1.0 instead of
raising; (2) a leaf whose sheet has no computed data defaults to
reliability 1.0 and failure rate 0.0; (3) the evaluation is total over
ill-formed trees with dangling child references: whenever the
child-reference graph of the existing blocks is founded by a rank
function, sufficient fuel makes the evaluation return a value. -/
theorem claim_C10_dangling_defaults_total
    (blocks : String → Option Rdialog.Block)
    (sheet : String → Option Rdialog.SheetEntry) :
    (∀ (fuel : ℕ) (bid : String), blocks bid = none →
      Rdialog.calc_block blocks sheet (fuel + 1) bid = some 1) ∧
    (∀ (fuel : ℕ) (bid : String) (b : Rdialog.Block), blocks bid = some b →
      b.is_group = false → sheet b.name = none →
      Rdialog.calc_block blocks sheet (fuel + 1) bid = some 1 ∧
        Rdialog.leaf_lambda sheet b = 0) ∧
    (∀ rank : String → ℕ,
      (∀ bid b, blocks bid = some b → ∀ c ∈ b.children, rank c < rank bid) →
      ∀ (fuel : ℕ) (bid : String), rank bid < fuel →
        (Rdialog.calc_block blocks sheet fuel bid).isSome = true) := by
  refine ⟨?_, ?_, ?_⟩
  · intro fuel bid h
    simp [Rdialog.calc_block, h]
  · intro fuel bid b hb hgroup hsheet
    constructor
    · simp [Rdialog.calc_block, hb, hgroup, hsheet]
    · simp [Rdialog.leaf_lambda, hsheet]
  · intro rank hrank fuel
    induction fuel with
    | zero =>
      intro bid hlt
      omega
    | succ f ih =>
      intro bid hlt
      rw [Rdialog.calc_block]
      cases hb : blocks bid with
      | none => rfl
      | some b =>
        by_cases hg : b.is_group
        · simp only [hg, if_true]
          have hchildren : ∀ c ∈ b.children,
              (Rdialog.calc_block blocks sheet f c).isSome = true := by
            intro c hc
            exact ih c (by have := hrank bid b hb c hc; omega)
          obtain ⟨rs, hrs⟩ := Option.isSome_iff_exists.mp
            (mapM_option_isSome hchildren)
          rw [hrs]
          cases b.connection_type <;> rfl
        · simp only [hg, if_false]
          rfl

/-- Concrete ill-formed diagram for the C10 witness: a root group whose
only child id `ghost` resolves to no block. -/
def ghost_demo_blocks : String → Option Rdialog.Block := fun bid =>
  if bid = "root" then
    some ⟨"root", true, ["ghost"], Rdialog.ConnectionType.series, 2⟩
  else none

/-- Rank function founding `ghost_demo_blocks`. -/
def ghost_demo_rank : String → ℕ := fun bid => if bid = "root" then 1 else 0

/-- Witness for C10 on the concrete dangling diagram: the dangling id
evaluates to reliability 1 and the root evaluation returns a value. -/
theorem claim_C10_witness :
    Rdialog.calc_block ghost_demo_blocks (fun _ => none) 1 "ghost" = some 1 ∧
    (Rdialog.calc_block ghost_demo_blocks (fun _ => none) 2 "root").isSome
      = true := by
  have h := claim_C10_dangling_defaults_total ghost_demo_blocks (fun _ => none)
  refine ⟨h.1 0 "ghost" (by rfl), h.2.2 ghost_demo_rank ?_ 2 "root" (by decide)⟩
  intro bid b hb c hc
  by_cases hbid : bid = "root"
  · subst hbid
    simp only [ghost_demo_blocks, if_true, eq_self_iff_true, Option.some_inj] at hb
    subst hb
    simp only [List.mem_singleton] at hc
    subst hc
    simp [ghost_demo_rank]
  · rw [ghost_demo_blocks] at hb
    simp [if_neg hbid] at hb

/-! ## Physical model layer of `reliability_math.py` (over `ℝ`)

Failure-rate models use `exp` and fractional powers, so they are
modelled over `ℝ` (Python floats idealized as reals).  Lookup tables
(`dict`s keyed by strings) become `String → Option entry`;
`dict.get(k, default)` becomes `Option.getD`. -/

namespace Rmath

namespace ActivationEnergy

/-- `ActivationEnergy.MOS` (Kelvin). -/
def MOS : ℝ := 3480

/-- `ActivationEnergy.BIPOLAR` (Kelvin). -/
def BIPOLAR : ℝ := 4640

/-- `ActivationEnergy.CAPACITOR_LOW`. -/
def CAPACITOR_LOW : ℝ := 1160

/-- `ActivationEnergy.CAPACITOR_MED`. -/
def CAPACITOR_MED : ℝ := 1740

/-- `ActivationEnergy.CAPACITOR_HIGH`. -/
def CAPACITOR_HIGH : ℝ := 2900

/-- `ActivationEnergy.ALUMINUM_CAP`. -/
def ALUMINUM_CAP : ℝ := 4640

/-- `ActivationEnergy.RESISTOR`. -/
def RESISTOR : ℝ := 1740

/-- `ActivationEnergy.GaAs_DIGITAL`. -/
def GaAs_DIGITAL : ℝ := 3480

/-- `ActivationEnergy.GaAs_MMIC`. -/
def GaAs_MMIC : ℝ := 4640

end ActivationEnergy

/-- One row of `IC_DIE_TABLE` (Table 16). -/
structure ICDieEntry where
  l1 : ℝ
  l2 : ℝ
  ea : ℝ

/-- `IC_DIE_TABLE` of `reliability_math.py`. -/
def IC_DIE_TABLE : String → Option ICDieEntry := fun s =>
  if s = "MOS_DIGITAL" then some ⟨3.4e-6, 1.7, ActivationEnergy.MOS⟩
  else if s = "MOS_LINEAR" then some ⟨3.4e-6, 1.7, ActivationEnergy.MOS⟩
  else if s = "MOS_MIXED" then some ⟨3.4e-6, 1.7, ActivationEnergy.MOS⟩
  else if s = "MOS_SRAM_FAST" then some ⟨2.7e-4, 20, ActivationEnergy.MOS⟩
  else if s = "MOS_FLASH" then some ⟨2.6e-7, 34, ActivationEnergy.MOS⟩
  else if s = "MOS_EEPROM" then some ⟨6.5e-7, 16, ActivationEnergy.MOS⟩
  else if s = "MOS_LCA" then some ⟨1.2e-5, 10, ActivationEnergy.MOS⟩
  else if s = "MOS_PLD" then some ⟨2.0e-5, 10, ActivationEnergy.MOS⟩
  else if s = "MOS_CPLD" then some ⟨4.0e-5, 8.8, ActivationEnergy.MOS⟩
  else if s = "BIPOLAR_LINEAR" then some ⟨2.7e-2, 20, ActivationEnergy.BIPOLAR⟩
  else if s = "BIPOLAR_DIGITAL" then some ⟨2.7e-3, 20, ActivationEnergy.BIPOLAR⟩
  else if s = "BICMOS_LOW_V" then some ⟨2.7e-4, 20, ActivationEnergy.MOS⟩
  else if s = "BICMOS_HIGH_V" then some ⟨2.7e-3, 20, ActivationEnergy.BIPOLAR⟩
  else if s = "GaAs_DIGITAL" then some ⟨1.0e-3, 10, ActivationEnergy.GaAs_DIGITAL⟩
  else if s = "GaAs_MMIC" then some ⟨1.5e-3, 10, ActivationEnergy.GaAs_MMIC⟩
  else none

/-- One row of `IC_PACKAGE_TABLE` (Table 17): the `formula` tag with
its coefficients (`fixed`/`pins`/`pins_alt`/`diagonal`). -/
inductive ICPackageFormula where
  | fixed (value : ℝ)
  | pins (coef expo : ℝ)
  | pins_alt (coef expo : ℝ)
  | diagonal (coef expo : ℝ)

/-- `IC_PACKAGE_TABLE` of `reliability_math.py`. -/
def IC_PACKAGE_TABLE : String → Option ICPackageFormula := fun s =>
  if s = "SO" then some (ICPackageFormula.pins 0.012 1.65)
  else if s = "TSSOP" then some (ICPackageFormula.pins 0.011 1.4)
  else if s = "SSOP" then some (ICPackageFormula.pins 0.013 1.35)
  else if s = "PLCC" then some (ICPackageFormula.pins 0.021 1.57)
  else if s = "TQFP-7x7" then some (ICPackageFormula.fixed 2.5)
  else if s = "TQFP-10x10" then some (ICPackageFormula.fixed 4.1)
  else if s = "PQFP-14x14" then some (ICPackageFormula.fixed 7.2)
  else if s = "PQFP-20x20" then some (ICPackageFormula.fixed 16.0)
  else if s = "PBGA-17x19" then some (ICPackageFormula.fixed 16.6)
  else if s = "PBGA-23x23" then some (ICPackageFormula.fixed 26.6)
  else if s = "PDIP" then some (ICPackageFormula.pins_alt 9.0 0.9)
  else if s = "QFN" then some (ICPackageFormula.diagonal 0.048 1.68)
  else none

/-- One row of `DISCRETE_PACKAGE_TABLE` (Table 18); not every entry
has an `rja` key. -/
structure DiscretePkgEntry where
  lb : ℝ
  rja : Option ℝ

/-- `DISCRETE_PACKAGE_TABLE` of `reliability_math.py`. -/
def DISCRETE_PACKAGE_TABLE : String → Option DiscretePkgEntry := fun s =>
  if s = "TO-92" then some ⟨1.0, some 300⟩
  else if s = "TO-220" then some ⟨5.7, some 60⟩
  else if s = "TO-247" then some ⟨6.9, some 35⟩
  else if s = "TO-263 (D2PAK)" then some ⟨5.7, some 15⟩
  else if s = "TO-252 (DPAK)" then some ⟨5.1, some 30⟩
  else if s = "SOT-23" then some ⟨1.0, some 400⟩
  else if s = "SOT-89" then some ⟨2.0, some 125⟩
  else if s = "SOT-223" then some ⟨3.4, some 85⟩
  else if s = "SOT-323" then some ⟨0.8, some 600⟩
  else if s = "DO-35" then some ⟨2.5, some 400⟩
  else if s = "DO-41" then some ⟨2.5, some 100⟩
  else if s = "SOD-123" then some ⟨1.0, some 600⟩
  else if s = "SOD-323" then some ⟨0.7, some 600⟩
  else if s = "SMA" then some ⟨1.8, some 600⟩
  else if s = "SMB" then some ⟨2.4, some 75⟩
  else if s = "0402" then some ⟨0.5, none⟩
  else if s = "0603" then some ⟨0.6, none⟩
  else if s = "0805" then some ⟨0.8, none⟩
  else if s = "1206" then some ⟨1.0, none⟩
  else none

/-- One row of `INTERFACE_EOS_VALUES`. -/
structure EosEntry where
  pi_i : ℝ
  l_eos : ℝ

/-- `INTERFACE_EOS_VALUES` of `reliability_math.py`. -/
def INTERFACE_EOS_VALUES : String → Option EosEntry := fun s =>
  if s = "Not Interface" then some ⟨0, 0⟩
  else if s = "Computer" then some ⟨1, 10⟩
  else if s = "Telecom (Switching)" then some ⟨1, 15⟩
  else if s = "Telecom (Subscriber)" then some ⟨1, 70⟩
  else if s = "Avionics" then some ⟨1, 20⟩
  else if s = "Power Supply" then some ⟨1, 40⟩
  else none

/-- One row of `DIODE_BASE_RATES` of `reliability_math.py`. -/
structure DiodeEntry where
  l0 : ℝ
  power_class : String

/-- `DIODE_BASE_RATES` of `reliability_math.py`. -/
def DIODE_BASE_RATES : String → Option DiodeEntry := fun s =>
  if s = "Signal (<1A)" then some ⟨0.07, "low"⟩
  else if s = "Recovery/Rectifier (1-3A)" then some ⟨0.1, "low"⟩
  else if s = "Zener (≤1.5W)" then some ⟨0.4, "low"⟩
  else if s = "TVS" then some ⟨2.3, "low"⟩
  else if s = "Schottky (<3A)" then some ⟨0.15, "low"⟩
  else if s = "LED" then some ⟨0.5, "low"⟩
  else if s = "Recovery/Rectifier (>3A)" then some ⟨0.7, "high"⟩
  else if s = "Zener (>1.5W)" then some ⟨0.7, "high"⟩
  else if s = "Schottky (≥3A)" then some ⟨0.7, "high"⟩
  else none

/-- One row of `TRANSISTOR_BASE_RATES`. -/
structure TransistorEntry where
  l0 : ℝ
  power_class : String
  tech : String

/-- `TRANSISTOR_BASE_RATES` of `reliability_math.py`. -/
def TRANSISTOR_BASE_RATES : String → Option TransistorEntry := fun s =>
  if s = "Silicon BJT (≤5W)" then some ⟨0.75, "low", "bipolar"⟩
  else if s = "Silicon MOSFET (≤5W)" then some ⟨0.75, "low", "mos"⟩
  else if s = "Silicon JFET (≤5W)" then some ⟨0.75, "low", "mos"⟩
  else if s = "Silicon BJT (>5W)" then some ⟨2.0, "high", "bipolar"⟩
  else if s = "Silicon MOSFET (>5W)" then some ⟨2.0, "high", "mos"⟩
  else if s = "Silicon IGBT" then some ⟨2.0, "high", "igbt"⟩
  else none

/-- One row of `CAPACITOR_PARAMS`. -/
structure CapacitorEntry where
  l0 : ℝ
  pkg_coef : ℝ
  ea : ℝ
  t_ref : ℝ

/-- `CAPACITOR_PARAMS` of `reliability_math.py`. -/
def CAPACITOR_PARAMS : String → Option CapacitorEntry := fun s =>
  if s = "Plastic/Paper Film" then
    some ⟨0.1, 1.4e-3, ActivationEnergy.CAPACITOR_HIGH, 303⟩
  else if s = "Ceramic Class I (C0G/NP0)" then
    some ⟨0.05, 3.3e-3, ActivationEnergy.CAPACITOR_LOW, 303⟩
  else if s = "Ceramic Class II (X7R/X5R)" then
    some ⟨0.15, 3.3e-3, ActivationEnergy.CAPACITOR_LOW, 303⟩
  else if s = "Tantalum Solid" then
    some ⟨0.4, 3.8e-3, ActivationEnergy.CAPACITOR_MED, 303⟩
  else if s = "Aluminum Electrolytic (Non-Solid)" then
    some ⟨1.3, 1.4e-3, ActivationEnergy.ALUMINUM_CAP, 313⟩
  else none

/-- One row of `RESISTOR_PARAMS`. -/
structure ResistorEntry where
  l0 : ℝ
  pkg_coef : ℝ
  temp_coef : ℝ

/-- `RESISTOR_PARAMS` of `reliability_math.py`. -/
def RESISTOR_PARAMS : String → Option ResistorEntry := fun s =>
  if s = "Film (Low Dissipation)" then some ⟨0.1, 1.4e-3, 85⟩
  else if s = "Carbon Composition" then some ⟨0.5, 1.4e-3, 60⟩
  else if s = "Wirewound (Low Dissipation)" then some ⟨0.3, 1.4e-3, 30⟩
  else if s = "SMD Chip Resistor" then some ⟨0.01, 3.3e-3, 55⟩
  else none

/-- One row of `INDUCTOR_PARAMS`. -/
structure InductorEntry where
  l0 : ℝ

/-- `INDUCTOR_PARAMS` of `reliability_math.py`. -/
def INDUCTOR_PARAMS : String → Option InductorEntry := fun s =>
  if s = "Fixed (Low Current)" then some ⟨0.2⟩
  else if s = "Variable" then some ⟨0.4⟩
  else if s = "Power Inductor" then some ⟨0.6⟩
  else if s = "Signal Transformer" then some ⟨1.5⟩
  else if s = "Power Transformer" then some ⟨3.0⟩
  else none

/-- `MISC_COMPONENT_RATES` of `reliability_math.py`. -/
def MISC_COMPONENT_RATES : String → Option ℝ := fun s =>
  if s = "Crystal Oscillator (XO)" then some 10.0
  else if s = "VCXO/TCXO" then some 15.0
  else if s = "Quartz Resonator" then some 5.0
  else if s = "Relay (Reed)" then some 50.0
  else if s = "Connector (per contact)" then some 0.5
  else if s = "DC-DC Converter (<10W)" then some 100.0
  else if s = "DC-DC Converter (≥10W)" then some 130.0
  else if s = "Fuse" then some 2.0
  else if s = "Ferrite Bead" then some 0.5
  else none

/-- Embeds `reliability_math.pi_thermal_cycles` (IEC TR 62380 §5.7):
`n ≤ 8760 → n ** 0.76`, else `1.7 * n ** 0.6`. -/
noncomputable def pi_thermal_cycles (n_cycles : ℝ) : ℝ :=
  if n_cycles ≤ 8760 then n_cycles ^ (0.76 : ℝ)
  else 1.7 * n_cycles ^ (0.6 : ℝ)

/-- Embeds `reliability_math.pi_temperature` (Arrhenius model). -/
noncomputable def pi_temperature (t ea t_ref : ℝ) : ℝ :=
  Real.exp (ea * (1 / t_ref - 1 / (273 + t)))

/-- Embeds `reliability_math.pi_alpha`. -/
noncomputable def pi_alpha (alpha_substrate alpha_package : ℝ) : ℝ :=
  0.06 * |alpha_substrate - alpha_package| ^ (1.68 : ℝ)

/-- Embeds `reliability_math.calculate_ic_lambda3`: `pins`/`diagonal`
are optional and additionally checked for Python truthiness (a value
of `0` falls through to the final `return 4.0`); an unknown package
returns `4.0`. -/
noncomputable def calculate_ic_lambda3 (package_type : String)
    (pins diagonal : Option ℝ) : ℝ :=
  match IC_PACKAGE_TABLE package_type with
  | none => 4.0
  | some (ICPackageFormula.fixed value) => value
  | some (ICPackageFormula.pins coef expo) =>
    match pins with
    | some p => if p ≠ 0 then coef * p ^ expo else 4.0
    | none => 4.0
  | some (ICPackageFormula.pins_alt coef expo) =>
    match pins with
    | some p => if p ≠ 0 then coef + p ^ expo else 4.0
    | none => 4.0
  | some (ICPackageFormula.diagonal coef expo) =>
    match diagonal with
    | some d => if d ≠ 0 then coef * d ^ expo else 4.0
    | none => 4.0

end Rmath

namespace Rmath

/-- Result dictionary of `lambda_integrated_circuit` / `lambda_diode`. -/
structure DieResult where
  lambda_die : ℝ
  lambda_package : ℝ
  lambda_eos : ℝ
  lambda_total : ℝ
  fit_total : ℝ

/-- Result dictionary of `lambda_transistor` (adds the `pi_s` key). -/
structure TransistorResult where
  lambda_die : ℝ
  lambda_package : ℝ
  lambda_eos : ℝ
  lambda_total : ℝ
  fit_total : ℝ
  pi_s : ℝ

/-- Result dictionary of `lambda_capacitor`. -/
structure CapacitorResult where
  lambda_base : ℝ
  lambda_package : ℝ
  lambda_total : ℝ
  fit_total : ℝ
  pi_t : ℝ

/-- Result dictionary of `lambda_resistor`. -/
structure ResistorResult where
  lambda_base : ℝ
  lambda_package : ℝ
  lambda_total : ℝ
  fit_total : ℝ
  t_resistor : ℝ
  pi_t : ℝ

/-- Result dictionary of `lambda_inductor`. -/
structure InductorResult where
  lambda_base : ℝ
  lambda_package : ℝ
  lambda_total : ℝ
  fit_total : ℝ
  t_component : ℝ

/-- Result dictionary of `lambda_misc_component`. -/
structure MiscResult where
  lambda_total : ℝ
  fit_total : ℝ

/-- Embeds `reliability_math.lambda_integrated_circuit` (IEC §7).
Arguments are passed positionally in the Python signature's order; the
table default is `IC_DIE_TABLE["MOS_DIGITAL"]`. -/
noncomputable def lambda_integrated_circuit (ic_type : String)
    (transistor_count construction_year t_junction : ℝ)
    (package_type : String) (pins : Option ℝ)
    (substrate_alpha package_alpha : ℝ)
    (is_interface : Bool) (interface_type : String)
    (n_cycles delta_t w_on : ℝ) : DieResult :=
  let die := (IC_DIE_TABLE ic_type).getD ⟨3.4e-6, 1.7, ActivationEnergy.MOS⟩
  let a := max 0 (construction_year - 1998)
  let year_factor := Real.exp (-0.35 * a)
  let pi_t := pi_temperature t_junction die.ea 328
  let lambda_die := (die.l1 * transistor_count * year_factor + die.l2) * pi_t * w_on
  let l3 := calculate_ic_lambda3 package_type pins none
  let pi_a := pi_alpha substrate_alpha package_alpha
  let pi_nv := pi_thermal_cycles n_cycles
  let lambda_package := 2.75e-3 * pi_a * pi_nv * delta_t ^ (0.68 : ℝ) * l3
  let eos := (INTERFACE_EOS_VALUES interface_type).getD ⟨0, 0⟩
  let lambda_eos := if is_interface then eos.pi_i * eos.l_eos else 0
  ⟨lambda_die * 1e-9, lambda_package * 1e-9, lambda_eos * 1e-9,
    (lambda_die + lambda_package + lambda_eos) * 1e-9,
    lambda_die + lambda_package + lambda_eos⟩

/-- Embeds `reliability_math.lambda_diode` (IEC §8.2/8.3); the table
default is `DIODE_BASE_RATES["Signal (<1A)"]`. -/
noncomputable def lambda_diode (diode_type : String) (t_junction : ℝ)
    (package : String) (is_interface : Bool) (interface_type : String)
    (n_cycles delta_t w_on : ℝ) : DieResult :=
  let params := (DIODE_BASE_RATES diode_type).getD ⟨0.07, "low"⟩
  let pi_t := pi_temperature t_junction ActivationEnergy.BIPOLAR 313
  let lambda_die := params.l0 * pi_t * w_on
  let lb := ((DISCRETE_PACKAGE_TABLE package).getD ⟨1.0, none⟩).lb
  let pi_nv := pi_thermal_cycles n_cycles
  let lambda_package := 2.75e-3 * pi_nv * delta_t ^ (0.68 : ℝ) * lb
  let eos := (INTERFACE_EOS_VALUES interface_type).getD ⟨0, 0⟩
  let lambda_eos := if is_interface then eos.pi_i * eos.l_eos else 0
  ⟨lambda_die * 1e-9, lambda_package * 1e-9, lambda_eos * 1e-9,
    (lambda_die + lambda_package + lambda_eos) * 1e-9,
    lambda_die + lambda_package + lambda_eos⟩

/-- Embeds `reliability_math.lambda_transistor` (IEC §8.4/8.5): the
electrical stress ratios are clamped from above only
(`s = min(ratio, 1.0)`); the table default is
`TRANSISTOR_BASE_RATES["Silicon MOSFET (≤5W)"]`. -/
noncomputable def lambda_transistor (transistor_type : String)
    (t_junction : ℝ) (package : String)
    (voltage_stress_vce voltage_stress_vds voltage_stress_vgs : ℝ)
    (is_interface : Bool) (interface_type : String)
    (n_cycles delta_t w_on : ℝ) : TransistorResult :=
  let params := (TRANSISTOR_BASE_RATES transistor_type).getD ⟨0.75, "low", "mos"⟩
  let l0 := params.l0
  let tech := params.tech
  let ea := if tech = "bipolar" then ActivationEnergy.BIPOLAR else ActivationEnergy.MOS
  let pi_t := pi_temperature t_junction ea 373
  let pi_s :=
    if tech = "bipolar" then 0.22 * Real.exp (1.7 * min voltage_stress_vce 1.0)
    else (0.22 * Real.exp (1.7 * min voltage_stress_vds 1.0)) *
      (0.22 * Real.exp (3 * min voltage_stress_vgs 1.0))
  let lambda_die := pi_s * l0 * pi_t * w_on
  let lb := ((DISCRETE_PACKAGE_TABLE package).getD ⟨1.0, none⟩).lb
  let pi_nv := pi_thermal_cycles n_cycles
  let lambda_package := 2.75e-3 * pi_nv * delta_t ^ (0.68 : ℝ) * lb
  let eos := (INTERFACE_EOS_VALUES interface_type).getD ⟨0, 0⟩
  let lambda_eos := if is_interface then eos.pi_i * eos.l_eos else 0
  ⟨lambda_die * 1e-9, lambda_package * 1e-9, lambda_eos * 1e-9,
    (lambda_die + lambda_package + lambda_eos) * 1e-9,
    lambda_die + lambda_package + lambda_eos, pi_s⟩

/-- Embeds `reliability_math.lambda_capacitor` (IEC §10); the table
default is `CAPACITOR_PARAMS["Ceramic Class II (X7R/X5R)"]`. -/
noncomputable def lambda_capacitor (capacitor_type : String)
    (t_ambient ripple_ratio n_cycles delta_t w_on : ℝ) : CapacitorResult :=
  let params := (CAPACITOR_PARAMS capacitor_type).getD
    ⟨0.15, 3.3e-3, ActivationEnergy.CAPACITOR_LOW, 303⟩
  let t_op := if pyIn "Aluminum" capacitor_type ∧ ripple_ratio > 0 then
      t_ambient + 20 * ripple_ratio ^ (2 : ℕ)
    else t_ambient
  let pi_t := pi_temperature t_op params.ea params.t_ref
  let pi_nv := pi_thermal_cycles n_cycles
  let pkg_factor := params.pkg_coef * pi_nv * delta_t ^ (0.68 : ℝ)
  let lambda_base := params.l0 * pi_t * w_on
  let lambda_package := params.l0 * pkg_factor
  ⟨lambda_base * 1e-9, lambda_package * 1e-9,
    (lambda_base + lambda_package) * 1e-9, lambda_base + lambda_package, pi_t⟩

/-- Embeds `reliability_math.lambda_resistor` (IEC §11); the table
default is `RESISTOR_PARAMS["SMD Chip Resistor"]`. -/
noncomputable def lambda_resistor (resistor_type : String)
    (t_ambient operating_power rated_power n_resistors
      n_cycles delta_t w_on : ℝ) : ResistorResult :=
  let params := (RESISTOR_PARAMS resistor_type).getD ⟨0.01, 3.3e-3, 55⟩
  let power_ratio := operating_power / max rated_power 1e-6
  let t_resistor := t_ambient + params.temp_coef * power_ratio
  let pi_t := pi_temperature t_resistor ActivationEnergy.RESISTOR 303
  let pi_nv := pi_thermal_cycles n_cycles
  let pkg_factor := params.pkg_coef * pi_nv * delta_t ^ (0.68 : ℝ)
  let l0_effective := params.l0 * n_resistors
  let lambda_base := l0_effective * pi_t * w_on
  let lambda_package := l0_effective * pkg_factor
  ⟨lambda_base * 1e-9, lambda_package * 1e-9,
    (lambda_base + lambda_package) * 1e-9, lambda_base + lambda_package,
    t_resistor, pi_t⟩

/-- Embeds `reliability_math.lambda_inductor` (IEC §12); the table
default is `INDUCTOR_PARAMS["Power Inductor"]`. -/
noncomputable def lambda_inductor (inductor_type : String)
    (t_ambient power_loss surface_area_mm2 n_cycles delta_t w_on : ℝ) :
    InductorResult :=
  let params := (INDUCTOR_PARAMS inductor_type).getD ⟨0.6⟩
  let surface_dm2 := surface_area_mm2 / 10000.0
  let t_rise := 8.2 * (power_loss / max surface_dm2 0.01)
  let t_component := t_ambient + t_rise
  let pi_t := pi_temperature t_component ActivationEnergy.RESISTOR 303
  let pi_nv := pi_thermal_cycles n_cycles
  let pkg_factor := 7e-3 * pi_nv * delta_t ^ (0.68 : ℝ)
  let lambda_base := params.l0 * pi_t * w_on
  let lambda_package := params.l0 * pkg_factor
  ⟨lambda_base * 1e-9, lambda_package * 1e-9,
    (lambda_base + lambda_package) * 1e-9, lambda_base + lambda_package,
    t_component⟩

/-- Embeds `reliability_math.lambda_misc_component`; an unknown
component type falls back to the base rate `10.0` FIT. -/
noncomputable def lambda_misc_component (component_type : String)
    (n_contacts n_cycles delta_t w_on : ℝ) : MiscResult :=
  let base0 := (MISC_COMPONENT_RATES component_type).getD 10.0
  let base_rate := if pyIn "Connector" component_type then base0 * n_contacts
    else base0
  let pi_nv := pi_thermal_cycles n_cycles
  let pkg_factor := 3e-3 * pi_nv * delta_t ^ (0.68 : ℝ)
  ⟨base_rate * (1 + pkg_factor) * 1e-9 * w_on, base_rate * (1 + pkg_factor)⟩

/-- The keys `calculate_lambda` may read from its `params` dict. -/
structure PyParams where
  t_ambient : Option ℝ
  t_junction : Option ℝ
  operating_power : Option ℝ
  rated_power : Option ℝ
  n_cycles : Option ℝ
  delta_t : Option ℝ
  n_pins : Option ℝ

/-- Embeds `reliability_math.calculate_lambda` ("legacy interface"):
substring dispatch over the lowercased class string; each branch calls
the corresponding model with the Python call's keyword arguments and
the Python defaults for all other parameters (inlined positionally);
the final fall-through returns the fixed default `10e-9` per hour. -/
noncomputable def calculate_lambda (component_class : String)
    (params : PyParams) : ℝ :=
  let cls := pyLower component_class
  let n_cycles := params.n_cycles.getD 5256
  let delta_t := params.delta_t.getD 3.0
  if pyIn "resistor" cls then
    (lambda_resistor "SMD Chip Resistor" (params.t_ambient.getD 25)
      (params.operating_power.getD 0.01) (params.rated_power.getD 0.125)
      1 n_cycles delta_t 1).lambda_total
  else if pyIn "ceramic" cls ∧ pyIn "capacitor" cls then
    (lambda_capacitor "Ceramic Class II (X7R/X5R)" (params.t_ambient.getD 25)
      0 n_cycles delta_t 1).lambda_total
  else if pyIn "tantalum" cls ∨ pyIn "electrolytic" cls then
    (lambda_capacitor
      (if pyIn "tantalum" cls then "Tantalum Solid"
        else "Aluminum Electrolytic (Non-Solid)")
      (params.t_ambient.getD 25) 0 n_cycles delta_t 1).lambda_total
  else if pyIn "transistor" cls then
    (lambda_transistor "Silicon MOSFET (≤5W)" (params.t_junction.getD 85)
      "SOT-23" 0.5 0.5 0.5 false "Not Interface"
      n_cycles delta_t 1).lambda_total
  else if pyIn "diode" cls then
    (lambda_diode "Signal (<1A)" (params.t_junction.getD 85) "SOD-123"
      false "Not Interface" n_cycles delta_t 1).lambda_total
  else if pyIn "integrated circuit" cls ∨ cls = "ic" ∨ cls = "mcu" ∨
      cls = "microcontroller" ∨ cls = "fpga" then
    (lambda_integrated_circuit "MOS_DIGITAL" 10000 2020
      (params.t_junction.getD 85) "TQFP-10x10" (some 48) 16.0 21.5
      false "Not Interface" n_cycles delta_t 1).lambda_total
  else if pyIn "inductor" cls then
    (lambda_inductor "Power Inductor" (params.t_ambient.getD 25) 0.1 100
      n_cycles delta_t 1).lambda_total
  else if pyIn "converter" cls ∨ pyIn "dc-dc" cls then
    (lambda_misc_component "DC-DC Converter (<10W)" 1
      n_cycles delta_t 1).lambda_total
  else if pyIn "ldo" cls ∨ pyIn "regulator" cls then
    (lambda_integrated_circuit "BICMOS_LOW_V" 10000 2020
      (params.t_junction.getD 100) "TQFP-10x10" (some 48) 16.0 21.5
      false "Not Interface" n_cycles delta_t 1).lambda_total
  else if pyIn "crystal" cls ∨ pyIn "oscillator" cls then
    (lambda_misc_component "Crystal Oscillator (XO)" 1 5256 3.0 1).lambda_total
  else if pyIn "connector" cls then
    (lambda_misc_component "Connector (per contact)" (params.n_pins.getD 10)
      5256 3.0 1).lambda_total
  else 10e-9

/-- Embeds `reliability_math.reliability_from_lambda`. -/
noncomputable def reliability_from_lambda (lambda_val mission_hours : ℝ) : ℝ :=
  Real.exp (-lambda_val * mission_hours)

/-- Embeds `reliability_math.lambda_from_reliability`; Python's
`float('inf')` is modelled as `⊤ : EReal`. -/
noncomputable def lambda_from_reliability (r mission_hours : ℝ) : EReal :=
  if r ≤ 0 then ⊤
  else if r ≥ 1 then 0
  else ((-Real.log r / mission_hours : ℝ) : EReal)

end Rmath

/-! ## Physical model layer of `reliability_core.py` (over `ℝ`) -/

namespace Rcore

/-- `ResistorParams` dataclass. -/
structure ResistorParams where
  reference : String
  component_class : String
  n_cycles : ℝ
  delta_t : ℝ
  t_ambient : ℝ
  operating_power : ℝ
  rated_power : ℝ

/-- `CapacitorParams` dataclass. -/
structure CapacitorParams where
  reference : String
  component_class : String
  n_cycles : ℝ
  delta_t : ℝ
  t_ambient : ℝ
  cap_type : String

/-- `TransistorParams` dataclass. -/
structure TransistorParams where
  reference : String
  component_class : String
  n_cycles : ℝ
  delta_t : ℝ
  t_junction : ℝ
  transistor_type : String
  power_class : String
  package : String
  v_ce_applied : ℝ
  v_ce_specified : ℝ
  v_ds_applied : ℝ
  v_ds_specified : ℝ
  v_gs_applied : ℝ
  v_gs_specified : ℝ
  pi_i : ℝ
  l_eos : ℝ

/-- `DiodeParams` dataclass. -/
structure DiodeParams where
  reference : String
  component_class : String
  n_cycles : ℝ
  delta_t : ℝ
  t_junction : ℝ
  diode_type : String
  power_class : String
  package : String
  pi_i : ℝ
  l_eos : ℝ

/-- `ICParams` dataclass. -/
structure ICParams where
  reference : String
  component_class : String
  n_cycles : ℝ
  delta_t : ℝ
  construction_year : ℝ
  t_junction : ℝ
  ic_type : String
  package : String
  substrate_material : String
  pcb_material : String

/-- `InductorParams` dataclass. -/
structure InductorParams where
  reference : String
  component_class : String
  n_cycles : ℝ
  delta_t : ℝ
  t_ambient : ℝ
  power_loss : ℝ
  surface_area : ℝ
  inductor_type : String

/-- `ConverterParams` dataclass. -/
structure ConverterParams where
  reference : String
  component_class : String
  n_cycles : ℝ
  delta_t : ℝ
  power_rating : ℝ

/-- One row of the core `IC_DIE_PARAMS` table. -/
structure CoreICDie where
  l1 : ℝ
  l2 : ℝ
  n : ℝ

/-- `IC_DIE_PARAMS` of `reliability_core.py` (Table 16 equivalent). -/
def IC_DIE_PARAMS : String → Option CoreICDie := fun s =>
  if s = "MOS Standard, Digital circuits, 20000 transistors" then
    some ⟨3.4e-6, 1.7, 20000⟩
  else if s = "MOS Standard, Digital circuits, 810 transistors" then
    some ⟨3.4e-6, 1.7, 810⟩
  else if s = "MOS Standard, Digital circuits, 2 gates" then
    some ⟨3.4e-6, 1.7, 8⟩
  else if s = "BICMOS, SRAM, Static Read Access Memory, 8-bit" then
    some ⟨6.8e-7, 8.8, 32⟩
  else if s = "MOS ASIC, Gate Arrays, 12 gates" then
    some ⟨2.0e-5, 10, 48⟩
  else if s = "Bipolar, Linear/Digital circuit low voltage, 15 transistors" then
    some ⟨2.7e-4, 20, 15⟩
  else if s = "BICMOS, linear/digital circuits, high voltage, 500 transistors" then
    some ⟨2.7e-3, 20, 500⟩
  else if s = "Bipolar circuits, linear/digital circuits, high voltage, 5000 transistors" then
    some ⟨2.7e-2, 20, 5000⟩
  else if s = "BICMOS, linear/digital circuits, high voltage, 20 transistors" then
    some ⟨2.7e-3, 20, 20⟩
  else if s = "BICMOS, linear/digital circuits, low voltage, 20 transistors" then
    some ⟨2.7e-4, 20, 20⟩
  else none

/-- `IC_PACKAGE_PARAMS` of `reliability_core.py` (Table 17a
equivalent); each Python entry is a thunk returning the value shown. -/
noncomputable def IC_PACKAGE_PARAMS : String → Option ℝ := fun s =>
  if s = "TSSOP, 16 pins" then some (0.011 * (16 : ℝ) ^ (1.4 : ℝ))
  else if s = "TSOP I: 0.5mm pitch, 20 pins" then some ((20 : ℝ) ^ (0.36 : ℝ))
  else if s = "SO,SOP, 8 pins" then some (0.012 * (8 : ℝ) ^ (1.65 : ℝ))
  else if s = "SO,SOP, 16 pins" then some (0.012 * (16 : ℝ) ^ (1.65 : ℝ))
  else if s = "TQFP,10x10" then some 4.1
  else if s = "TQFP, 5x5" then some 1.3
  else if s = "PQFP, TQFP, 5x5" then some 1.3
  else none

/-- `DISCRETE_PACKAGE_PARAMS` of `reliability_core.py` (Table 18
equivalent). -/
def DISCRETE_PACKAGE_PARAMS : String → Option ℝ := fun s =>
  if s = "D2PACK, 3 pins" then some 5.7
  else if s = "SOT-23, 3 pins" then some 1.0
  else if s = "SOD-123, 3 pins" then some 1.0
  else if s = "TO-220, 3 pins" then some 5.7
  else if s = "DPACK, 6 pins" then some 5.1
  else if s = "TO-247, 3 pins" then some 6.9
  else none

/-- `DIODE_BASE_RATES` of `reliability_core.py`, keyed by
`(diode_type, power_key)`. -/
def CORE_DIODE_BASE_RATES : String → String → Option ℝ := fun dt pk =>
  if dt = "signal" ∧ pk = "low" then some 0.07
  else if dt = "signal" ∧ pk = "high" then some 0.07
  else if dt = "recovery" ∧ pk = "low" then some 0.1
  else if dt = "recovery" ∧ pk = "high" then some 0.7
  else if dt = "zener" ∧ pk = "low" then some 0.4
  else if dt = "zener" ∧ pk = "high" then some 0.7
  else if dt = "transient" ∧ pk = "low" then some 2.3
  else if dt = "transient" ∧ pk = "high" then some 0.7
  else if dt = "trigger" ∧ pk = "low" then some 2.0
  else if dt = "trigger" ∧ pk = "high" then some 3.0
  else if dt = "gallium" ∧ pk = "low" then some 0.3
  else if dt = "gallium" ∧ pk = "high" then some 1.0
  else if dt = "thyristors" ∧ pk = "low" then some 1.0
  else if dt = "thyristors" ∧ pk = "high" then some 3.0
  else none

/-- `INDUCTOR_BASE_RATES` of `reliability_core.py`, keyed by
`(family, kind)`. -/
def INDUCTOR_BASE_RATES : String → String → Option ℝ := fun fam kind =>
  if fam = "inductor" ∧ kind = "low fixed" then some 0.2
  else if fam = "inductor" ∧ kind = "low variable" then some 0.4
  else if fam = "inductor" ∧ kind = "Power Inductor" then some 0.6
  else if fam = "transformer" ∧ kind = "signal" then some 1.5
  else if fam = "transformer" ∧ kind = "power" then some 3.0
  else none

/-- `THERMAL_EXPANSION` of `reliability_core.py`. -/
def THERMAL_EXPANSION : String → Option ℝ := fun s =>
  if s = "Epoxy" then some 16
  else if s = "FR4" then some 21.5
  else none

/-- Embeds `reliability_core.pi_n` (thermal cycling factor, same
piecewise formula as `reliability_math.pi_thermal_cycles`). -/
noncomputable def pi_n (n_cycles : ℝ) : ℝ :=
  if n_cycles ≤ 8760 then n_cycles ^ (0.76 : ℝ)
  else 1.7 * n_cycles ^ (0.6 : ℝ)

/-- Embeds `reliability_core.pi_thermal_ic`. -/
noncomputable def pi_thermal_ic (t_junction : ℝ) (is_bipolar : Bool) : ℝ :=
  let ea : ℝ := if is_bipolar then 4640 else 3480
  Real.exp (ea * (1 / 328 - 1 / (273 + t_junction)))

/-- Embeds `reliability_core.pi_thermal_diode`. -/
noncomputable def pi_thermal_diode (t_junction : ℝ) : ℝ :=
  Real.exp (4640 * (1 / 313 - 1 / (273 + t_junction)))

/-- Embeds `reliability_core.pi_thermal_transistor`. -/
noncomputable def pi_thermal_transistor (t_junction : ℝ) (is_bipolar : Bool) : ℝ :=
  let ea : ℝ := if is_bipolar then 4640 else 3480
  Real.exp (ea * (1 / 373 - 1 / (t_junction + 273)))

/-- Embeds `reliability_core.pi_thermal_capacitor`. -/
noncomputable def pi_thermal_capacitor (t_ambient : ℝ) (is_tantalum : Bool) : ℝ :=
  let ea : ℝ := if is_tantalum then 1740 else 1160
  Real.exp (ea * (1 / 303 - 1 / (273 + t_ambient)))

/-- Embeds `reliability_core.pi_thermal_resistor`. -/
noncomputable def pi_thermal_resistor (t_ambient op_power rated_power : ℝ) : ℝ :=
  let t_resistor := t_ambient + 85 * (op_power / rated_power)
  Real.exp (1740 * (1 / 303 - 1 / (273 + t_resistor)))

/-- Embeds `reliability_core.pi_thermal_inductor`. -/
noncomputable def pi_thermal_inductor (t_ambient power_loss surface : ℝ) : ℝ :=
  let t_rise := 8.2 * (power_loss / surface)
  let t_operating := t_ambient + t_rise
  Real.exp (1740 * (1 / 303 - 1 / (t_operating + 273)))

/-- Embeds `reliability_core.pi_alpha` (string-keyed, with fallback
coefficients 16 and 21.5). -/
noncomputable def pi_alpha (substrate pcb : String) : ℝ :=
  let alpha_s := (THERMAL_EXPANSION substrate).getD 16
  let alpha_c := (THERMAL_EXPANSION pcb).getD 21.5
  0.06 * |alpha_s - alpha_c| ^ (1.68 : ℝ)

/-- Embeds `reliability_core.pi_stress_transistor`: NO clamping of the
stress ratios; only a division-by-zero guard (`ratio = 0` when the
rated voltage is not positive). -/
noncomputable def pi_stress_transistor (transistor_type : String)
    (v_ce v_ce_max v_ds v_ds_max v_gs v_gs_max : ℝ) : ℝ :=
  if transistor_type = "Bipolar" then
    let s := if v_ce_max > 0 then v_ce / v_ce_max else 0
    0.22 * Real.exp (1.7 * s)
  else
    let s1 := if v_ds_max > 0 then v_ds / v_ds_max else 0
    let s2 := if v_gs_max > 0 then v_gs / v_gs_max else 0
    0.22 * Real.exp (1.7 * s1) * 0.22 * Real.exp (3 * s2)

/-- Embeds `reliability_core.lambda_resistor`. -/
noncomputable def lambda_resistor (params : ResistorParams) : ℝ :=
  let pi_t := pi_thermal_resistor params.t_ambient params.operating_power
    params.rated_power
  let pi_cyc := pi_n params.n_cycles * params.delta_t ^ (0.68 : ℝ)
  0.1 * (pi_t + 1.4e-3 * pi_cyc) * 1e-9

/-- Embeds `reliability_core.lambda_capacitor`. -/
noncomputable def lambda_capacitor (params : CapacitorParams) : ℝ :=
  let is_tantalum := pyLower params.cap_type == "tantalum"
  let pi_t := pi_thermal_capacitor params.t_ambient is_tantalum
  let pi_cyc := pi_n params.n_cycles * params.delta_t ^ (0.68 : ℝ)
  if is_tantalum then 0.4 * (pi_t + 3.8e-3 * pi_cyc) * 1e-9
  else 0.15 * (pi_t + 3.3e-3 * pi_cyc) * 1e-9

/-- Embeds `reliability_core.lambda_transistor`. -/
noncomputable def lambda_transistor (params : TransistorParams) : ℝ :=
  let pi_t := pi_thermal_transistor params.t_junction
    (params.transistor_type == "Bipolar")
  let pi_s := pi_stress_transistor params.transistor_type
    params.v_ce_applied params.v_ce_specified
    params.v_ds_applied params.v_ds_specified
    params.v_gs_applied params.v_gs_specified
  let l0 : ℝ := if params.power_class = "low" then 0.75 else 2.0
  let lambda_die := pi_s * l0 * pi_t
  let l_b := (DISCRETE_PACKAGE_PARAMS params.package).getD 1.0
  let lambda_pkg := 2.75e-3 * pi_n params.n_cycles *
    params.delta_t ^ (0.68 : ℝ) * l_b
  let lambda_eos := params.pi_i * params.l_eos
  (lambda_die + lambda_pkg + lambda_eos) * 1e-9

/-- Embeds `reliability_core.lambda_diode`. -/
noncomputable def lambda_diode (params : DiodeParams) : ℝ :=
  let pi_t := pi_thermal_diode params.t_junction
  let power_key := if params.power_class = "low" then "low" else "high"
  let l0 := (CORE_DIODE_BASE_RATES params.diode_type power_key).getD 0.1
  let pi_u : ℝ := if params.diode_type = "thyristors" then 10 else 1
  let lambda_die := pi_u * l0 * pi_t
  let l_b := (DISCRETE_PACKAGE_PARAMS params.package).getD 1.0
  let lambda_pkg := 2.75e-3 * pi_n params.n_cycles *
    params.delta_t ^ (0.68 : ℝ) * l_b
  let lambda_eos := params.pi_i * params.l_eos
  (lambda_die + lambda_pkg + lambda_eos) * 1e-9

/-- Embeds `reliability_core.lambda_ic`: an IC type missing from
`IC_DIE_PARAMS` returns `0.0`. -/
noncomputable def lambda_ic (params : ICParams) : ℝ :=
  match IC_DIE_PARAMS params.ic_type with
  | none => 0.0
  | some die =>
    let is_bipolar := pyIn "Bipolar" params.ic_type ||
      pyIn "high voltage" params.ic_type
    let year_factor := Real.exp (-0.35 * (params.construction_year - 1998))
    let pi_t := pi_thermal_ic params.t_junction is_bipolar
    let lambda_die := (die.l1 * die.n * year_factor + die.l2) * pi_t
    let l3 := (IC_PACKAGE_PARAMS params.package).getD 1.0
    let pi_a := pi_alpha params.substrate_material params.pcb_material
    let lambda_pkg := 2.75e-3 * pi_a * pi_n params.n_cycles *
      params.delta_t ^ (0.68 : ℝ) * l3
    let lambda_base : ℝ := 40
    (lambda_die + lambda_pkg + lambda_base) * 1e-9

/-- Embeds `reliability_core.lambda_inductor`. -/
noncomputable def lambda_inductor (params : InductorParams) : ℝ :=
  let l0 := (INDUCTOR_BASE_RATES "inductor" params.inductor_type).getD 0.6
  let pi_t := pi_thermal_inductor params.t_ambient params.power_loss
    params.surface_area
  let pi_cyc := pi_n params.n_cycles * params.delta_t ^ (0.68 : ℝ)
  l0 * (pi_t + 7e-3 * pi_cyc) * 1e-9

/-- Embeds `reliability_core.lambda_converter`. -/
noncomputable def lambda_converter (params : ConverterParams) : ℝ :=
  let l0 : ℝ := if params.power_rating < 10 then 100 else 130
  let pi_cyc := pi_n params.n_cycles * params.delta_t ^ (0.68 : ℝ)
  l0 * (1 + 3e-3 * pi_cyc) * 1e-9

/-- Embeds `reliability_core.lambda_battery`. -/
def lambda_battery : ℝ := 20e-9

/-- The keys `calculate_component_lambda` may read from its `params`
dict. -/
structure CoreDict where
  reference : Option String
  n_cycles : Option ℝ
  delta_t : Option ℝ
  t_ambient : Option ℝ
  operating_power : Option ℝ
  rated_power : Option ℝ
  t_junction : Option ℝ
  transistor_type : Option String
  package : Option String
  v_ce_applied : Option ℝ
  v_ce_specified : Option ℝ
  v_ds_applied : Option ℝ
  v_ds_specified : Option ℝ
  v_gs_applied : Option ℝ
  v_gs_specified : Option ℝ
  diode_type : Option String
  construction_year : Option ℝ
  ic_type : Option String
  substrate : Option String
  pcb : Option String
  power_loss : Option ℝ
  surface_area : Option ℝ
  inductor_type : Option String
  power_rating : Option ℝ

/-- Embeds `reliability_core.calculate_component_lambda`: substring
dispatch over the lowercased class string; each branch builds the
dataclass with `params.get(...)` defaults (the dataclass defaults
`pi_i = 1.0`, `l_eos = 40.0` are not overridden by the factory); an
unknown component type returns `0.0`. -/
noncomputable def calculate_component_lambda (component_class : String)
    (params : CoreDict) : ℝ :=
  let cls := pyLower component_class
  let n_cycles := params.n_cycles.getD 5256
  let delta_t := params.delta_t.getD 3.0
  if pyIn "resistor" cls then
    lambda_resistor ⟨params.reference.getD "R?", component_class, n_cycles,
      delta_t, params.t_ambient.getD 25.0, params.operating_power.getD 0.01,
      params.rated_power.getD 0.125⟩
  else if pyIn "ceramic" cls ∧ pyIn "capacitor" cls then
    lambda_capacitor ⟨params.reference.getD "C?", component_class, n_cycles,
      delta_t, params.t_ambient.getD 25.0, "ceramic"⟩
  else if pyIn "tantalum" cls ∧ pyIn "capacitor" cls then
    lambda_capacitor ⟨params.reference.getD "C?", component_class, n_cycles,
      delta_t, params.t_ambient.getD 25.0, "tantalum"⟩
  else if pyIn "transistor" cls then
    lambda_transistor ⟨params.reference.getD "Q?", component_class, n_cycles,
      delta_t, params.t_junction.getD 85.0,
      params.transistor_type.getD "MOS",
      (if pyIn "power" cls then "high" else "low"),
      params.package.getD "SOT-23, 3 pins",
      params.v_ce_applied.getD 0.0, params.v_ce_specified.getD 1.0,
      params.v_ds_applied.getD 0.0, params.v_ds_specified.getD 1.0,
      params.v_gs_applied.getD 0.0, params.v_gs_specified.getD 1.0,
      1.0, 40.0⟩
  else if pyIn "diode" cls then
    lambda_diode ⟨params.reference.getD "D?", component_class, n_cycles,
      delta_t, params.t_junction.getD 85.0,
      params.diode_type.getD "signal",
      (if pyIn "power" cls then "high" else "low"),
      params.package.getD "SOD-123, 3 pins", 1.0, 40.0⟩
  else if pyIn "integrated circuit" cls ∨ pyIn "ic" cls then
    lambda_ic ⟨params.reference.getD "U?", component_class, n_cycles,
      delta_t, params.construction_year.getD 2020,
      params.t_junction.getD 85.0,
      params.ic_type.getD "MOS Standard, Digital circuits, 20000 transistors",
      params.package.getD "TQFP,10x10",
      params.substrate.getD "Epoxy", params.pcb.getD "FR4"⟩
  else if pyIn "inductor" cls then
    lambda_inductor ⟨params.reference.getD "L?", component_class, n_cycles,
      delta_t, params.t_ambient.getD 25.0, params.power_loss.getD 0.1,
      params.surface_area.getD 100.0,
      params.inductor_type.getD "Power Inductor"⟩
  else if pyIn "converter" cls then
    lambda_converter ⟨params.reference.getD "PS?", component_class, n_cycles,
      delta_t, params.power_rating.getD 5.0⟩
  else if pyIn "battery" cls then
    lambda_battery
  else 0.0

/-- Embeds `reliability_core.lambda_from_reliability` (note the guard
shape differs from the `reliability_math` version: `r == 1` falls
through to `-log(r)/hours`). -/
noncomputable def lambda_from_reliability (r mission_hours : ℝ) : EReal :=
  if r ≤ 0 ∨ r > 1 then (if r ≤ 0 then ⊤ else 0)
  else ((-Real.log r / mission_hours : ℝ) : EReal)

end Rcore

/-! ## C4: the thermal-cycling factor and its breakpoint -/

theorem rpow_breakpoint_gap :
    1.7 * (8760 : ℝ) ^ (0.6 : ℝ) < (8760 : ℝ) ^ (0.76 : ℝ) := by
  have h0 : (0 : ℝ) < 8760 := by norm_num
  have hsplit : (8760 : ℝ) ^ (0.76 : ℝ) =
      (8760 : ℝ) ^ (0.6 : ℝ) * (8760 : ℝ) ^ (0.16 : ℝ) := by
    rw [← Real.rpow_add h0]
    norm_num
  have hpos6 : (0 : ℝ) < (8760 : ℝ) ^ (0.6 : ℝ) := Real.rpow_pos_of_pos h0 _
  have hkey : (1.7 : ℝ) < (8760 : ℝ) ^ (0.16 : ℝ) := by
    have hge : (0 : ℝ) ≤ (8760 : ℝ) ^ (0.16 : ℝ) :=
      Real.rpow_nonneg (by norm_num) _
    refine lt_of_pow_lt_pow_left₀ 25 hge ?_
    have h1 : ((8760 : ℝ) ^ (0.16 : ℝ)) ^ (25 : ℕ) = (8760 : ℝ) ^ (4 : ℕ) := by
      rw [← Real.rpow_natCast ((8760 : ℝ) ^ (0.16 : ℝ)) 25,
        ← Real.rpow_mul (le_of_lt h0),
        show (0.16 : ℝ) * ((25 : ℕ) : ℝ) = ((4 : ℕ) : ℝ) by norm_num,
        Real.rpow_natCast]
    rw [h1]
    norm_num
  rw [hsplit]
  nlinarith

/-- C4 counterexample: the claimed continuity equation at the
breakpoint, `pi_thermal_cycles(8760) = 1.7 * 8760^0.6`, is false: the
lower branch value `8760^0.76 ≈ 991` strictly exceeds the upper-branch
limit `1.7 * 8760^0.6 ≈ 395`. -/
theorem claim_C4_counterexample :
    Rmath.pi_thermal_cycles 8760 ≠ 1.7 * (8760 : ℝ) ^ (0.6 : ℝ) := by
  have hval : Rmath.pi_thermal_cycles 8760 = (8760 : ℝ) ^ (0.76 : ℝ) := by
    rw [Rmath.pi_thermal_cycles, if_pos (by norm_num)]
  rw [hval]
  exact ne_of_gt rpow_breakpoint_gap

/-- C4 amended: both implementations compute the claimed piecewise
function `n ≤ 8760 → n^0.76`, `n > 8760 → 1.7 * n^0.6`, and they agree
with each other; but the factor is NOT continuous at the breakpoint:
the lower-branch value at `n = 8760` strictly exceeds the limit of the
upper branch, `1.7 * 8760^0.6`. -/
theorem claim_C4_piecewise_with_jump :
    (∀ n : ℝ, Rmath.pi_thermal_cycles n =
      if n ≤ 8760 then n ^ (0.76 : ℝ) else 1.7 * n ^ (0.6 : ℝ)) ∧
    (∀ n : ℝ, Rcore.pi_n n = Rmath.pi_thermal_cycles n) ∧
    1.7 * (8760 : ℝ) ^ (0.6 : ℝ) < Rmath.pi_thermal_cycles 8760 := by
  refine ⟨fun n => rfl, fun n => rfl, ?_⟩
  have hval : Rmath.pi_thermal_cycles 8760 = (8760 : ℝ) ^ (0.76 : ℝ) := by
    rw [Rmath.pi_thermal_cycles, if_pos (by norm_num)]
  rw [hval]
  exact rpow_breakpoint_gap

/-! ## C5: rate-from-reliability conversion -/

/-- C5: for every reliability `r` and mission duration `hours > 0`,
both implementations of the conversion return `+∞` (modelled `⊤`) for
`r ≤ 0`, `0` for `r ≥ 1`, and `-ln(r)/hours` for `0 < r < 1`; being
total Lean functions they raise no exception (the guards keep `log`
away from `r ≤ 0`). -/
theorem claim_C5_rate_from_reliability (r hours : ℝ) (_hours_pos : 0 < hours) :
    (r ≤ 0 → Rmath.lambda_from_reliability r hours = ⊤ ∧
      Rcore.lambda_from_reliability r hours = ⊤) ∧
    (1 ≤ r → Rmath.lambda_from_reliability r hours = 0 ∧
      Rcore.lambda_from_reliability r hours = 0) ∧
    (0 < r → r < 1 →
      Rmath.lambda_from_reliability r hours =
        ((-Real.log r / hours : ℝ) : EReal) ∧
      Rcore.lambda_from_reliability r hours =
        ((-Real.log r / hours : ℝ) : EReal)) := by
  refine ⟨?_, ?_, ?_⟩
  · intro h
    constructor
    · rw [Rmath.lambda_from_reliability, if_pos h]
    · rw [Rcore.lambda_from_reliability, if_pos (Or.inl h), if_pos h]
  · intro h
    have h0 : ¬ r ≤ 0 := by linarith
    constructor
    · rw [Rmath.lambda_from_reliability, if_neg h0, if_pos h]
    · by_cases h1 : r > 1
      · rw [Rcore.lambda_from_reliability, if_pos (Or.inr h1), if_neg h0]
      · have hr1 : r = 1 := le_antisymm (by linarith) h
        subst hr1
        rw [Rcore.lambda_from_reliability, if_neg (by push_neg; constructor <;> linarith)]
        norm_num
  · intro h1 h2
    have hm : ¬ r ≤ 0 := by linarith
    have hm2 : ¬ r ≥ 1 := by linarith
    constructor
    · rw [Rmath.lambda_from_reliability, if_neg hm, if_neg hm2]
    · rw [Rcore.lambda_from_reliability,
        if_neg (by push_neg; constructor <;> linarith)]

/-- Witness for C5 at `r = 1/2`, `hours = 1`. -/
theorem claim_C5_witness :
    ((1 / 2 : ℝ) ≤ 0 → Rmath.lambda_from_reliability (1 / 2) 1 = ⊤ ∧
      Rcore.lambda_from_reliability (1 / 2) 1 = ⊤) ∧
    ((1 : ℝ) ≤ 1 / 2 → Rmath.lambda_from_reliability (1 / 2) 1 = 0 ∧
      Rcore.lambda_from_reliability (1 / 2) 1 = 0) ∧
    ((0 : ℝ) < 1 / 2 → (1 / 2 : ℝ) < 1 →
      Rmath.lambda_from_reliability (1 / 2) 1 =
        ((-Real.log (1 / 2) / 1 : ℝ) : EReal) ∧
      Rcore.lambda_from_reliability (1 / 2) 1 =
        ((-Real.log (1 / 2) / 1 : ℝ) : EReal)) :=
  claim_C5_rate_from_reliability (1 / 2) 1 (by norm_num)

/-! ## C3: the transistor electrical-stress factor -/

theorem bjt_pi_s_eval (tj : ℝ) (pkg : String) (vce vds vgs : ℝ)
    (ifc : Bool) (itype : String) (nc dt w : ℝ) :
    (Rmath.lambda_transistor "Silicon BJT (≤5W)" tj pkg vce vds vgs
      ifc itype nc dt w).pi_s = 0.22 * Real.exp (1.7 * min vce 1.0) := by
  simp [Rmath.lambda_transistor, Rmath.TRANSISTOR_BASE_RATES]

theorem mosfet_pi_s_eval (tj : ℝ) (pkg : String) (vce vds vgs : ℝ)
    (ifc : Bool) (itype : String) (nc dt w : ℝ) :
    (Rmath.lambda_transistor "Silicon MOSFET (≤5W)" tj pkg vce vds vgs
      ifc itype nc dt w).pi_s =
      (0.22 * Real.exp (1.7 * min vds 1.0)) *
        (0.22 * Real.exp (3 * min vgs 1.0)) := by
  simp [Rmath.lambda_transistor, Rmath.TRANSISTOR_BASE_RATES]

/-- C3 counterexample: at the applied/rated ratio `-1` (below 0) for a
bipolar transistor, the code's stress factor `0.22 * exp(1.7 * min(-1, 1))
= 0.22 * exp(-1.7)` differs from the claimed value with the ratio
clamped to `[0, 1]`, `0.22 * exp(1.7 * max(min(-1, 1), 0)) = 0.22`:
the implementation clamps only from above. -/
theorem claim_C3_counterexample :
    (Rmath.lambda_transistor "Silicon BJT (≤5W)" 85 "SOT-23" (-1) 0.5 0.5
      false "Not Interface" 5256 3.0 1).pi_s ≠
      0.22 * Real.exp (1.7 * max (min (-1 : ℝ) 1) 0) := by
  rw [bjt_pi_s_eval]
  have h1 : min (-1 : ℝ) 1.0 = -1 := by norm_num
  have h2 : max (min (-1 : ℝ) 1) 0 = 0 := by norm_num
  rw [h1, h2]
  intro heq
  have h3 := mul_left_cancel₀ (show (0.22 : ℝ) ≠ 0 by norm_num) heq
  rw [Real.exp_eq_exp] at h3
  norm_num at h3

/-- C3 amended: the bipolar factor is `0.22 * exp(1.7 * s)` with the
ratio clamped from ABOVE only (`s = min(ratio, 1)`, no clamping at 0)
in `reliability_math.lambda_transistor`, and the MOS factor is the
product of the corresponding drain-source (exponent 1.7) and
gate-source (exponent 3) terms; `reliability_core.pi_stress_transistor`
applies no clamping at all (the ratio is `v/v_max` whenever
`v_max > 0`).  For ratios already in `[0, 1]` both implementations
agree with the claimed formula `0.22 * exp(1.7 * s)`. -/
theorem claim_C3_stress_factor_shape (tj : ℝ) (pkg : String)
    (vce vds vgs : ℝ) (ifc : Bool) (itype : String) (nc dt w : ℝ)
    (v_ce v_ce_max v_ds v_ds_max v_gs v_gs_max : ℝ)
    (hce : 0 < v_ce_max) (hds : 0 < v_ds_max) (hgs : 0 < v_gs_max)
    (_hlo : 0 ≤ vce) (hhi : vce ≤ 1) :
    (Rmath.lambda_transistor "Silicon BJT (≤5W)" tj pkg vce vds vgs
      ifc itype nc dt w).pi_s = 0.22 * Real.exp (1.7 * min vce 1.0) ∧
    (Rmath.lambda_transistor "Silicon MOSFET (≤5W)" tj pkg vce vds vgs
      ifc itype nc dt w).pi_s =
      (0.22 * Real.exp (1.7 * min vds 1.0)) *
        (0.22 * Real.exp (3 * min vgs 1.0)) ∧
    Rcore.pi_stress_transistor "Bipolar" v_ce v_ce_max v_ds v_ds_max
      v_gs v_gs_max = 0.22 * Real.exp (1.7 * (v_ce / v_ce_max)) ∧
    Rcore.pi_stress_transistor "MOS" v_ce v_ce_max v_ds v_ds_max
      v_gs v_gs_max = 0.22 * Real.exp (1.7 * (v_ds / v_ds_max)) * 0.22 *
        Real.exp (3 * (v_gs / v_gs_max)) ∧
    (Rmath.lambda_transistor "Silicon BJT (≤5W)" tj pkg vce vds vgs
      ifc itype nc dt w).pi_s = 0.22 * Real.exp (1.7 * vce) := by
  refine ⟨bjt_pi_s_eval tj pkg vce vds vgs ifc itype nc dt w,
    mosfet_pi_s_eval tj pkg vce vds vgs ifc itype nc dt w, ?_, ?_, ?_⟩
  · simp [Rcore.pi_stress_transistor, hce]
  · simp [Rcore.pi_stress_transistor, hds, hgs]
  · rw [bjt_pi_s_eval,
      show min vce 1.0 = vce from by rw [show (1.0 : ℝ) = 1 by norm_num]; exact min_eq_left hhi]

/-- Witness for C3 at concrete in-range inputs. -/
theorem claim_C3_witness :
    (Rmath.lambda_transistor "Silicon BJT (≤5W)" 85 "SOT-23" (1/2) (1/2) (1/2)
      false "Not Interface" 5256 3.0 1).pi_s =
      0.22 * Real.exp (1.7 * min (1/2 : ℝ) 1.0) ∧
    (Rmath.lambda_transistor "Silicon MOSFET (≤5W)" 85 "SOT-23" (1/2) (1/2) (1/2)
      false "Not Interface" 5256 3.0 1).pi_s =
      (0.22 * Real.exp (1.7 * min (1/2 : ℝ) 1.0)) *
        (0.22 * Real.exp (3 * min (1/2 : ℝ) 1.0)) ∧
    Rcore.pi_stress_transistor "Bipolar" 1 2 1 2 1 2 =
      0.22 * Real.exp (1.7 * ((1 : ℝ) / 2)) ∧
    Rcore.pi_stress_transistor "MOS" 1 2 1 2 1 2 =
      0.22 * Real.exp (1.7 * ((1 : ℝ) / 2)) * 0.22 *
        Real.exp (3 * ((1 : ℝ) / 2)) ∧
    (Rmath.lambda_transistor "Silicon BJT (≤5W)" 85 "SOT-23" (1/2) (1/2) (1/2)
      false "Not Interface" 5256 3.0 1).pi_s =
      0.22 * Real.exp (1.7 * (1/2 : ℝ)) :=
  claim_C3_stress_factor_shape 85 "SOT-23" (1/2) (1/2) (1/2)
    false "Not Interface" 5256 3.0 1 1 2 1 2 1 2
    (by norm_num) (by norm_num) (by norm_num) (by norm_num) (by norm_num)

/-! ## C1: defaults for unknown classes and missing table keys -/

/-- An empty parameter dict for `calculate_component_lambda`. -/
def emptyCoreDict : Rcore.CoreDict :=
  ⟨none, none, none, none, none, none, none, none, none, none, none, none,
    none, none, none, none, none, none, none, none, none, none, none, none⟩

/-- An empty parameter dict for `calculate_lambda`. -/
def emptyPyParams : Rmath.PyParams := ⟨none, none, none, none, none, none, none⟩

/-- C1 counterexample: `reliability_core.calculate_component_lambda`
returns the failure rate `0.0` — not a strictly positive conservative
default — for the unrecognized component class `"widget"`. -/
theorem claim_C1_counterexample :
    Rcore.calculate_component_lambda "widget" emptyCoreDict = 0 ∧
    ¬ (0 < Rcore.calculate_component_lambda "widget" emptyCoreDict) := by
  have h1 : pyIn "resistor" (pyLower "widget") = false := by decide
  have h2 : pyIn "ceramic" (pyLower "widget") = false := by decide
  have h3 : pyIn "tantalum" (pyLower "widget") = false := by decide
  have h4 : pyIn "transistor" (pyLower "widget") = false := by decide
  have h5 : pyIn "diode" (pyLower "widget") = false := by decide
  have h6 : pyIn "integrated circuit" (pyLower "widget") = false := by decide
  have h7 : pyIn "ic" (pyLower "widget") = false := by decide
  have h8 : pyIn "inductor" (pyLower "widget") = false := by decide
  have h9 : pyIn "converter" (pyLower "widget") = false := by decide
  have h10 : pyIn "battery" (pyLower "widget") = false := by decide
  have hz : Rcore.calculate_component_lambda "widget" emptyCoreDict = 0 := by
    rw [Rcore.calculate_component_lambda]
    simp only [h1, h2, h3, h4, h5, h6, h7, h8, h9, h10]
    norm_num
  exact ⟨hz, by rw [hz]; exact lt_irrefl 0⟩

theorem pyIn_self (s : String) : pyIn s s = true := by
  simp [pyIn, List.infix_refl]

/-- A component class string that matches none of the category
keywords tested by either dispatcher (`reliability_math.calculate_lambda`
and `reliability_core.calculate_component_lambda`), applied to the
lowercased class string. -/
def unrecognized_class (cls : String) : Prop :=
  pyIn "resistor" cls = false ∧ pyIn "ceramic" cls = false ∧
  pyIn "capacitor" cls = false ∧ pyIn "tantalum" cls = false ∧
  pyIn "electrolytic" cls = false ∧ pyIn "transistor" cls = false ∧
  pyIn "diode" cls = false ∧ pyIn "integrated circuit" cls = false ∧
  pyIn "ic" cls = false ∧ pyIn "mcu" cls = false ∧
  pyIn "fpga" cls = false ∧ pyIn "inductor" cls = false ∧
  pyIn "converter" cls = false ∧ pyIn "dc-dc" cls = false ∧
  pyIn "ldo" cls = false ∧ pyIn "regulator" cls = false ∧
  pyIn "crystal" cls = false ∧ pyIn "oscillator" cls = false ∧
  pyIn "connector" cls = false ∧ pyIn "battery" cls = false

/-- C1 amended: for an unrecognized component class,
`reliability_math.calculate_lambda` returns the fixed strictly
positive default `10e-9`/hour, but
`reliability_core.calculate_component_lambda` returns `0.0`.  Missing
table keys in `reliability_math` fall back to fixed defaults (IC
package `λ3 = 4.0`, diode type → `Signal (<1A)` parameters, transistor
type → `Silicon MOSFET (≤5W)`, IC die type → `MOS_DIGITAL`, discrete
package base `1.0`), while an IC type missing from the core's
`IC_DIE_PARAMS` makes `reliability_core.lambda_ic` return `0.0`. -/
theorem claim_C1_default_rates
    (component_class : String) (p : Rmath.PyParams) (q : Rcore.CoreDict)
    (pkg dtype ttype ictype dpkg : String) (pins diag : Option ℝ)
    (tj tcount year salpha palpha nc dt w : ℝ)
    (package2 : String) (ifc : Bool) (itype : String)
    (vce vds vgs : ℝ) (cp : Rcore.ICParams)
    (hcls : unrecognized_class (pyLower component_class))
    (hpkg : Rmath.IC_PACKAGE_TABLE pkg = none)
    (hdty : Rmath.DIODE_BASE_RATES dtype = none)
    (htty : Rmath.TRANSISTOR_BASE_RATES ttype = none)
    (hicty : Rmath.IC_DIE_TABLE ictype = none)
    (hdpkg : Rmath.DISCRETE_PACKAGE_TABLE dpkg = none)
    (hcp : Rcore.IC_DIE_PARAMS cp.ic_type = none) :
    Rmath.calculate_lambda component_class p = 10e-9 ∧
    (0 : ℝ) < Rmath.calculate_lambda component_class p ∧
    Rcore.calculate_component_lambda component_class q = 0 ∧
    Rmath.calculate_ic_lambda3 pkg pins diag = 4.0 ∧
    Rmath.lambda_diode dtype tj package2 ifc itype nc dt w =
      Rmath.lambda_diode "Signal (<1A)" tj package2 ifc itype nc dt w ∧
    Rmath.lambda_transistor ttype tj package2 vce vds vgs ifc itype nc dt w =
      Rmath.lambda_transistor "Silicon MOSFET (≤5W)" tj package2 vce vds vgs
        ifc itype nc dt w ∧
    Rmath.lambda_integrated_circuit ictype tcount year tj pkg pins salpha
        palpha ifc itype nc dt w =
      Rmath.lambda_integrated_circuit "MOS_DIGITAL" tcount year tj pkg pins
        salpha palpha ifc itype nc dt w ∧
    ((Rmath.DISCRETE_PACKAGE_TABLE dpkg).getD ⟨1.0, none⟩).lb = 1.0 ∧
    Rcore.lambda_ic cp = 0 := by
  obtain ⟨h1, h2, h3, h4, h5, h6, h7, h8, h9, h10, h11, h12, h13, h14, h15,
    h16, h17, h18, h19, h20⟩ := hcls
  have hics : ¬ (pyLower component_class = "ic") := by
    intro he
    rw [he, pyIn_self] at h9
    simp at h9
  have hmcu : ¬ (pyLower component_class = "mcu") := by
    intro he
    rw [he, pyIn_self] at h10
    simp at h10
  have hmicro : ¬ (pyLower component_class = "microcontroller") := by
    intro he
    rw [he] at h9
    exact absurd h9 (by decide)
  have hfpga : ¬ (pyLower component_class = "fpga") := by
    intro he
    rw [he, pyIn_self] at h11
    simp at h11
  have hmain : Rmath.calculate_lambda component_class p = 10e-9 := by
    rw [Rmath.calculate_lambda]
    simp only [h1, h2, h3, h4, h5, h6, h7, h8, h9, h10, h11, h12, h13, h14,
      h15, h16, h17, h18, h19, hics, hmcu, hmicro, hfpga]
    norm_num
  refine ⟨hmain, by rw [hmain]; norm_num, ?_, ?_, ?_, ?_, ?_, ?_, ?_⟩
  · rw [Rcore.calculate_component_lambda]
    simp only [h1, h2, h3, h4, h6, h7, h8, h9, h12, h13, h20]
    norm_num
  · simp [Rmath.calculate_ic_lambda3, hpkg]
  · rw [Rmath.lambda_diode, Rmath.lambda_diode, hdty]
    rfl
  · rw [Rmath.lambda_transistor, Rmath.lambda_transistor, htty]
    rfl
  · rw [Rmath.lambda_integrated_circuit, Rmath.lambda_integrated_circuit, hicty]
    rfl
  · rw [hdpkg]
    rfl
  · simp [Rcore.lambda_ic, hcp]
    norm_num

/-- Witness for C1 at the unrecognized class `"widget"` and concrete
missing table keys. -/
theorem claim_C1_witness :
    Rmath.calculate_lambda "widget" emptyPyParams = 10e-9 ∧
    (0 : ℝ) < Rmath.calculate_lambda "widget" emptyPyParams ∧
    Rcore.calculate_component_lambda "widget" emptyCoreDict = 0 ∧
    Rmath.calculate_ic_lambda3 "DIP-64" none none = 4.0 ∧
    Rmath.lambda_diode "Varicap" 85 "SOT-23" false "Not Interface" 5256 3 1 =
      Rmath.lambda_diode "Signal (<1A)" 85 "SOT-23" false "Not Interface"
        5256 3 1 ∧
    Rmath.lambda_transistor "Darlington" 85 "SOT-23" (1/2) (1/2) (1/2)
        false "Not Interface" 5256 3 1 =
      Rmath.lambda_transistor "Silicon MOSFET (≤5W)" 85 "SOT-23" (1/2) (1/2)
        (1/2) false "Not Interface" 5256 3 1 ∧
    Rmath.lambda_integrated_circuit "MOS_QUANTUM" 10000 2020 85 "DIP-64"
        none 16 21.5 false "Not Interface" 5256 3 1 =
      Rmath.lambda_integrated_circuit "MOS_DIGITAL" 10000 2020 85 "DIP-64"
        none 16 21.5 false "Not Interface" 5256 3 1 ∧
    ((Rmath.DISCRETE_PACKAGE_TABLE "TO-999").getD ⟨1.0, none⟩).lb = 1.0 ∧
    Rcore.lambda_ic ⟨"U?", "ic", 5256, 3, 2020, 85, "MOS_QUANTUM",
      "TQFP,10x10", "Epoxy", "FR4"⟩ = 0 :=
  claim_C1_default_rates "widget" emptyPyParams emptyCoreDict
    "DIP-64" "Varicap" "Darlington" "MOS_QUANTUM" "TO-999" none none
    85 10000 2020 16 21.5 5256 3 1 "SOT-23" false "Not Interface"
    (1/2) (1/2) (1/2)
    ⟨"U?", "ic", 5256, 3, 2020, 85, "MOS_QUANTUM", "TQFP,10x10", "Epoxy", "FR4"⟩
    (by unfold unrecognized_class; decide) rfl rfl rfl rfl rfl rfl
